import Mathlib

/-!
# mod-player: the AudioWorklet processor and its libopenmpt wrapper

A shallow embedding of `src/cpp/openmpt_wrapper.{h,cpp}` and
`src/cpp/worklet_processor.cpp`.

* A `float` or `double` value is the rational it denotes.  The `double`
  arithmetic of the position throttle is rounded: a division or an addition is
  the exact operation followed by `Lib.roundDouble`, and the literal `0.016` is
  `Lib.roundDouble (16 / 1000)`.  Comparisons, the stores of `0.0` and of
  `-1.0f`, and the volume clamp are exact on floating-point values as well.
  The gain multiplication of `readInterleavedStereo` is exact in the model.
* `int` values are `Int`; the one narrowing cast in the code
  (`static_cast<int>(size_t)`) is modelled by `wrapInt32`.
* What the program takes from outside is the parameter `Lib E`: the C API of
  the external library libopenmpt, where `E` is the type of engine states (what
  an `openmpt_module*` points to), and the rounding of the platform's `double`.
* The file-scope globals and the function-local static of `audio_process_cb`
  are the fields of `State`.  One extra field, `events`, records in order the
  mutating calls made on `g_module` and the stores of 1 to `g_positionReady`;
  no code reads it.
-/

namespace ModPlayer

/-! ## Float buffers -/

/-- Memory behind a `float*`: a total map from index to sample. -/
abbrev Buf : Type := Nat → ℚ

/-- The assignment `b[i] = v`. -/
def Buf.set (b : Buf) (i : Nat) (v : ℚ) : Buf :=
  fun j => if j = i then v else b j

/-- The call `std::memset(b + start, 0, sizeof(float) * count)`. -/
def memsetZero (b : Buf) (start count : Nat) : Buf :=
  fun j => if start ≤ j ∧ j < start + count then 0 else b j

/-- The cast `static_cast<int>(n)` of a 32-bit `size_t` to a 32-bit `int`. -/
def wrapInt32 (n : Nat) : Int :=
  if n % 2 ^ 32 < 2 ^ 31 then ((n % 2 ^ 32 : Nat) : Int)
  else ((n % 2 ^ 32 : Nat) : Int) - 2 ^ 32

/-! ## openmpt_wrapper.h -/

/-- The constant `MAX_VU_CHANNELS` of the header. -/
def MAX_VU_CHANNELS : Nat := 32

/-- The struct `PositionInfo` of the header. -/
structure PositionInfo where
  positionMs : ℚ
  currentRow : Int
  currentPattern : Int
  currentOrder : Int
  bpm : ℚ
  numChannels : Int
  channelVU : List ℚ
deriving DecidableEq

/-- A `PositionInfo` after `std::memset(&out, 0, sizeof(out))`; also the value of
the zero-initialised static `g_positionInfo`. -/
def PositionInfo.zero : PositionInfo :=
  { positionMs := 0, currentRow := 0, currentPattern := 0, currentOrder := 0,
    bpm := 0, numChannels := 0, channelVU := List.replicate MAX_VU_CHANNELS 0 }

/-- The part of the libopenmpt C API that the wrapper calls.  Functions that
mutate the module return the new engine state; return values that the wrapper
ignores are left out.  `read_interleaved_float_stereo e rate count` returns the
new engine state, the number of frames rendered and the contents of the
interleaved buffer after the call.  The last field is the platform's rounding
of a real result to a `double`. -/
structure Lib (E : Type) where
  create_from_memory2 : List Nat → Nat → Option E
  RENDER_INTERPOLATIONFILTER_LENGTH : Int
  set_render_param : E → Int → Int → E
  set_repeat_count : E → Int → E
  set_position_order_row : E → Int → Int → E
  set_position_seconds : E → ℚ → E
  read_interleaved_float_stereo : E → Int → Nat → E × Nat × Buf
  get_position_seconds : E → ℚ
  get_current_row : E → Int
  get_current_order : E → Int
  get_current_estimated_bpm : E → ℚ
  get_num_channels : E → Int
  get_order_pattern : E → Int → Int
  get_current_channel_vu_mono : E → Int → ℚ
  roundDouble : ℚ → ℚ

/-- The class `OpenMPTModule`: `mod_` is `none` for `nullptr`. -/
structure OpenMPTModule (E : Type) where
  mod_ : Option E
  volume_ : ℚ

namespace OpenMPTModule

variable {E : Type}

/-- The default member initialisers: `mod_ = nullptr`, `volume_ = 1.0f`. -/
def init : OpenMPTModule E :=
  { mod_ := none, volume_ := 1 }

/-- The method `OpenMPTModule::unload`. -/
def unload (m : OpenMPTModule E) : OpenMPTModule E :=
  match m.mod_ with
  | some _ => { m with mod_ := none }
  | none => m

/-- The inline method `isLoaded`: `mod_ != nullptr`. -/
def isLoaded (m : OpenMPTModule E) : Bool :=
  m.mod_.isSome

/-- The method `OpenMPTModule::load`: the module after the call and the result. -/
def load (L : Lib E) (m : OpenMPTModule E) (data : List Nat) (length : Nat) :
    OpenMPTModule E × Bool :=
  let m1 := m.unload
  match L.create_from_memory2 data length with
  | none => ({ m1 with mod_ := none }, false)
  | some e =>
    let e1 := L.set_render_param e L.RENDER_INTERPOLATIONFILTER_LENGTH 8
    let e2 := L.set_repeat_count e1 (-1)
    ({ m1 with mod_ := some e2 }, true)

/-- The gain loop `for (int i = 0; i < total; ++i) buffer[i] *= volume_;`,
run for its first `n` iterations. -/
def scaleLoop (vol : ℚ) : Nat → Buf → Buf
  | 0, b => b
  | n + 1, b =>
    let b1 := scaleLoop vol n b
    b1.set n (b1 n * vol)

/-- The method `OpenMPTModule::readInterleavedStereo`: the module after the
call, the returned frame count and the buffer after the call. -/
def readInterleavedStereo (L : Lib E) (m : OpenMPTModule E) (sampleRate : Int)
    (frames : Int) (buffer : Buf) : OpenMPTModule E × Int × Buf :=
  match m.mod_ with
  | none => (m, 0, buffer)
  | some e =>
    let r := L.read_interleaved_float_stereo e sampleRate frames.toNat
    let rendered : Int := wrapInt32 r.2.1
    let m1 : OpenMPTModule E := { m with mod_ := some r.1 }
    if m1.volume_ < 999 / 1000 ∧ rendered > 0 then
      let total : Int := rendered * 2
      (m1, rendered, scaleLoop m1.volume_ total.toNat r.2.2)
    else
      (m1, rendered, r.2.2)

/-- The method `OpenMPTModule::seekOrderRow`. -/
def seekOrderRow (L : Lib E) (m : OpenMPTModule E) (order row : Int) : OpenMPTModule E :=
  match m.mod_ with
  | some e => { m with mod_ := some (L.set_position_order_row e order row) }
  | none => m

/-- The method `OpenMPTModule::seekSeconds`. -/
def seekSeconds (L : Lib E) (m : OpenMPTModule E) (seconds : ℚ) : OpenMPTModule E :=
  match m.mod_ with
  | some e => { m with mod_ := some (L.set_position_seconds e seconds) }
  | none => m

/-- The method `OpenMPTModule::setRepeatCount`. -/
def setRepeatCount (L : Lib E) (m : OpenMPTModule E) (count : Int) : OpenMPTModule E :=
  match m.mod_ with
  | some e => { m with mod_ := some (L.set_repeat_count e count) }
  | none => m

/-- The method `OpenMPTModule::setVolume`:
`volume_ = std::max(0.0f, std::min(1.0f, vol))`. -/
def setVolume (m : OpenMPTModule E) (vol : ℚ) : OpenMPTModule E :=
  { m with volume_ := max 0 (min 1 vol) }

/-- The method `OpenMPTModule::getCurrentRow`. -/
def getCurrentRow (L : Lib E) (m : OpenMPTModule E) : Int :=
  match m.mod_ with
  | some e => L.get_current_row e
  | none => 0

/-- The method `OpenMPTModule::getChannelVU` for an array of `maxCh` cells: the
first `min(num_channels, maxCh)` cells hold the engine's levels, the rest 0. -/
def getChannelVU (L : Lib E) (m : OpenMPTModule E) (maxCh : Nat) : List ℚ :=
  match m.mod_ with
  | none => List.replicate maxCh 0
  | some e =>
    let nch : Int := min (L.get_num_channels e) (maxCh : Int)
    (List.range maxCh).map
      (fun c => if (c : Int) < nch then L.get_current_channel_vu_mono e (c : Int) else 0)

/-- The method `OpenMPTModule::fillPositionInfo`: the value written to `out`. -/
def fillPositionInfo (L : Lib E) (m : OpenMPTModule E) : PositionInfo :=
  match m.mod_ with
  | none => PositionInfo.zero
  | some e =>
    let order := L.get_current_order e
    { positionMs := L.get_position_seconds e * 1000
      currentRow := L.get_current_row e
      currentOrder := order
      bpm := L.get_current_estimated_bpm e
      numChannels := L.get_num_channels e
      currentPattern := if order ≥ 0 then L.get_order_pattern e order else 0
      channelVU := getChannelVU L m MAX_VU_CHANNELS }

end OpenMPTModule

/-! ## worklet_processor.cpp -/

/-- What `events` records: each mutating method call made on `g_module` by the
functions of `worklet_processor.cpp`, with its arguments, and each
`g_positionReady.store(1)` together with the `currentRow` that the snapshot
buffer holds at that moment. -/
inductive Event where
  | load (data : List Nat) (length : Nat)
  | unload
  | seekOrderRow (order row : Int)
  | setRepeatCount (count : Int)
  | setVolume (vol : ℚ)
  | readInterleavedStereo (sampleRate frames : Int)
  | publish (row : Int)
deriving DecidableEq

/-- Whether the event is a call of `g_module.load`. -/
def Event.isLoad : Event → Bool
  | .load _ _ => true
  | _ => false

/-- Whether the event is a call of `g_module.seekOrderRow`. -/
def Event.isSeek : Event → Bool
  | .seekOrderRow _ _ => true
  | _ => false

/-- Whether the event is a call of `g_module.setRepeatCount`. -/
def Event.isSetRepeatCount : Event → Bool
  | .setRepeatCount _ => true
  | _ => false

/-- Whether the event is a call of `g_module.setVolume`. -/
def Event.isSetVolume : Event → Bool
  | .setVolume _ => true
  | _ => false

/-- Whether the event is a store of 1 to `g_positionReady`. -/
def Event.isPublish : Event → Bool
  | .publish _ => true
  | _ => false

/-- The fields of Emscripten's `AudioSampleFrame` that the callback uses. -/
structure AudioSampleFrame where
  numberOfChannels : Int
  samplesPerSec : Int
  data : Buf

/-- The shared state of `worklet_processor.cpp`.  `g_moduleData` is `none` for
`nullptr` and otherwise the contents of the heap block it points to. -/
structure State (E : Type) where
  g_module : OpenMPTModule E
  g_moduleData : Option (List Nat)
  g_moduleDataSize : Nat
  g_cmdLoad : Int
  g_cmdSeekOrder : Int
  g_cmdSeekRow : Int
  g_cmdSetLoop : Int
  g_cmdVolume : ℚ
  g_positionInfo : PositionInfo
  g_positionReady : Int
  g_audioCtx : Int
  g_workletNode : Int
  g_lastReportedRow : Int
  g_lastReportTimeS : ℚ
  timeSinceLastReport : ℚ
  events : List Event

variable {E : Type}

/-- The initialisers of the globals. -/
def State.init : State E :=
  { g_module := OpenMPTModule.init
    g_moduleData := none
    g_moduleDataSize := 0
    g_cmdLoad := 0
    g_cmdSeekOrder := -1
    g_cmdSeekRow := -1
    g_cmdSetLoop := -1
    g_cmdVolume := -1
    g_positionInfo := PositionInfo.zero
    g_positionReady := 0
    g_audioCtx := 0
    g_workletNode := 0
    g_lastReportedRow := -1
    g_lastReportTimeS := 0
    timeSinceLastReport := 0
    events := [] }

/-- The load command of `audio_process_cb` (lines 69-82). -/
def drainLoad (L : Lib E) (s : State E) : State E :=
  if s.g_cmdLoad = 1 then
    let s1 := { s with g_cmdLoad := 0 }
    match s1.g_moduleData with
    | some data =>
      if s1.g_moduleDataSize > 0 then
        let r := s1.g_module.load L data s1.g_moduleDataSize
        { s1 with
          g_module := r.1
          g_moduleData := none
          g_moduleDataSize := 0
          events := s1.events ++ [Event.load data s1.g_moduleDataSize] }
      else s1
    | none => s1
  else s

/-- The seek command of `audio_process_cb` (lines 84-91). -/
def drainSeek (L : Lib E) (s : State E) : State E :=
  let order := s.g_cmdSeekOrder
  let s1 := { s with g_cmdSeekOrder := -1 }
  let row := s1.g_cmdSeekRow
  let s2 := { s1 with g_cmdSeekRow := -1 }
  if order ≥ 0 ∧ row ≥ 0 then
    { s2 with
      g_module := s2.g_module.seekOrderRow L order row
      events := s2.events ++ [Event.seekOrderRow order row] }
  else s2

/-- The loop command of `audio_process_cb` (lines 93-99). -/
def drainLoop (L : Lib E) (s : State E) : State E :=
  let loop := s.g_cmdSetLoop
  let s1 := { s with g_cmdSetLoop := -1 }
  if loop ≥ 0 then
    let count : Int := if loop ≠ 0 then -1 else 0
    { s1 with
      g_module := s1.g_module.setRepeatCount L count
      events := s1.events ++ [Event.setRepeatCount count] }
  else s1

/-- The volume command of `audio_process_cb` (lines 101-107). -/
def drainVolume (s : State E) : State E :=
  let vol := s.g_cmdVolume
  let s1 := { s with g_cmdVolume := -1 }
  if vol ≥ 0 then
    { s1 with
      g_module := s1.g_module.setVolume vol
      events := s1.events ++ [Event.setVolume vol] }
  else s1

/-- The first half of `audio_process_cb` (lines 67-107): the four commands in
source order. -/
def drainCommands (L : Lib E) (s : State E) : State E :=
  drainVolume (drainLoop L (drainSeek L (drainLoad L s)))

/-- The de-interleave loop (lines 145-148), run for its first `n` iterations. -/
def deinterleaveLoop (interleaved : Buf) (frames : Nat) : Nat → Buf → Buf
  | 0, outData => outData
  | n + 1, outData =>
    let o := deinterleaveLoop interleaved frames n outData
    (o.set n (interleaved (n * 2))).set (frames + n) (interleaved (n * 2 + 1))

/-- The sample rate handed to the engine and used for the elapsed time:
`out.samplesPerSec > 0 ? out.samplesPerSec : 48000`. -/
def effectiveRate (out : AudioSampleFrame) : Int :=
  if out.samplesPerSec > 0 then out.samplesPerSec else 48000

/-- The second half of `audio_process_cb` (lines 109-174): the state and
`outputs[0]` after the call.  `interleaved` is an uninitialised stack array in
the source; it starts here as all zero, and the engine's read decides its
contents.  Loop bounds and `memset` offsets and counts are taken with `toNat`,
which is exact whenever `0 ≤ rendered ≤ frames`. -/
def renderQuantum (L : Lib E) (numOutputs : Int) (out : AudioSampleFrame) (s : State E) :
    State E × AudioSampleFrame :=
  if numOutputs < 1 ∨ out.numberOfChannels < 2 then (s, out)
  else
    let frames : Int := 128
    if ¬ s.g_module.isLoaded then
      (s, { out with data := memsetZero out.data 0 (frames * out.numberOfChannels).toNat })
    else
      let r := s.g_module.readInterleavedStereo L (effectiveRate out) frames (fun _ => 0)
      let rendered : Int := r.2.1
      let interleaved : Buf := r.2.2
      let s1 : State E :=
        { s with
          g_module := r.1
          events := s.events ++ [Event.readInterleavedStereo (effectiveRate out) frames] }
      if rendered = 0 then
        ({ s1 with
            g_positionInfo := { s1.g_positionInfo with currentRow := -1 }
            g_positionReady := 1
            events := s1.events ++ [Event.publish (-1)] },
          { out with data := memsetZero out.data 0 (frames * out.numberOfChannels).toNat })
      else
        let d1 := deinterleaveLoop interleaved frames.toNat rendered.toNat out.data
        let d2 :=
          if rendered < frames then
            memsetZero (memsetZero d1 rendered.toNat (frames - rendered).toNat)
              (frames.toNat + rendered.toNat) (frames - rendered).toNat
          else d1
        let currentRow := s1.g_module.getCurrentRow L
        let elapsed : ℚ := L.roundDouble ((frames : ℚ) / (effectiveRate out : ℚ))
        let s2 : State E :=
          { s1 with
            timeSinceLastReport := L.roundDouble (s1.timeSinceLastReport + elapsed)
            g_lastReportTimeS := L.roundDouble (s1.g_lastReportTimeS + elapsed) }
        let rowChanged : Prop := currentRow ≠ s2.g_lastReportedRow
        let timeThreshold : Prop := s2.timeSinceLastReport ≥ L.roundDouble (16 / 1000)
        if rowChanged ∨ timeThreshold then
          let pi := s2.g_module.fillPositionInfo L
          ({ s2 with
              g_lastReportedRow := currentRow
              timeSinceLastReport := 0
              g_positionInfo := pi
              g_positionReady := 1
              events := s2.events ++ [Event.publish pi.currentRow] },
            { out with data := d2 })
        else
          (s2, { out with data := d2 })

/-- The callback `audio_process_cb`: the state and `outputs[0]` after the call
(its return value is always `EM_TRUE`). -/
def audio_process_cb (L : Lib E) (numOutputs : Int) (out : AudioSampleFrame) (s : State E) :
    State E × AudioSampleFrame :=
  renderQuantum L numOutputs out (drainCommands L s)

/-- The export `load_module`: `data` is `none` for a null pointer, `mallocOk`
says whether `malloc(length)` returns a block.  Gives the state after the call
and the returned `int`. -/
def load_module (data : Option (List Nat)) (length : Int) (mallocOk : Bool) (s : State E) :
    State E × Int :=
  match data with
  | none => (s, 0)
  | some bytes =>
    if length ≤ 0 then (s, 0)
    else if ¬ mallocOk then ({ s with g_moduleData := none }, 0)
    else
      ({ s with
          g_moduleData := some (bytes.take length.toNat)
          g_moduleDataSize := length.toNat
          g_cmdLoad := 1 }, 1)

/-- The export `seek_order_row`. -/
def seek_order_row (order row : Int) (s : State E) : State E :=
  { s with g_cmdSeekOrder := order, g_cmdSeekRow := row }

/-- The export `set_loop`. -/
def set_loop (loop : Int) (s : State E) : State E :=
  { s with g_cmdSetLoop := loop }

/-- The export `set_volume`. -/
def set_volume (vol : ℚ) (s : State E) : State E :=
  { s with g_cmdVolume := vol }

/-- The export `poll_position`: the state after the call and the snapshot the
returned pointer refers to (`none` for `nullptr`). -/
def poll_position (s : State E) : State E × Option PositionInfo :=
  let old := s.g_positionReady
  let s1 := { s with g_positionReady := 0 }
  if old ≠ 0 then (s1, some s1.g_positionInfo) else (s1, none)

/-- The export `cleanup_audio`. -/
def cleanup_audio (s : State E) : State E :=
  let s1 := { s with g_module := s.g_module.unload, events := s.events ++ [Event.unload] }
  let s2 :=
    match s1.g_moduleData with
    | some _ => { s1 with g_moduleData := none }
    | none => s1
  { s2 with g_audioCtx := 0, g_workletNode := 0 }

/-! ## Runs: control-thread calls interleaved with render quanta -/

/-- A call of one of the exported control functions, with its arguments. -/
inductive ControlOp where
  | load_module (data : Option (List Nat)) (length : Int) (mallocOk : Bool)
  | seek_order_row (order row : Int)
  | set_loop (loop : Int)
  | set_volume (vol : ℚ)
  | poll_position
  | cleanup_audio

/-- The state after a control call. -/
def ControlOp.apply (op : ControlOp) (s : State E) : State E :=
  match op with
  | .load_module data length mallocOk => (ModPlayer.load_module data length mallocOk s).1
  | .seek_order_row order row => ModPlayer.seek_order_row order row s
  | .set_loop loop => ModPlayer.set_loop loop s
  | .set_volume vol => ModPlayer.set_volume vol s
  | .poll_position => (ModPlayer.poll_position s).1
  | .cleanup_audio => ModPlayer.cleanup_audio s

/-- One render quantum of a run: the control calls made since the previous
quantum, then the arguments the host passes to `audio_process_cb`. -/
structure Quantum where
  ops : List ControlOp
  numOutputs : Int
  out : AudioSampleFrame

/-- The state in which the callback of quantum `q` starts, from the state `s`
in which the previous callback returned. -/
def Quantum.pre (q : Quantum) (s : State E) : State E :=
  q.ops.foldl (fun t op => op.apply t) s

/-- The state after the first `k` quanta of the run `q` started in `s`. -/
def runQuanta (L : Lib E) (q : Nat → Quantum) (s : State E) : Nat → State E
  | 0 => s
  | k + 1 =>
    (audio_process_cb L (q k).numOutputs (q k).out ((q k).pre (runQuanta L q s k))).1

/-- The events recorded between the states `s` and `t`. -/
def newEvents (s t : State E) : List Event :=
  t.events.drop s.events.length

/-- How many times one call of `audio_process_cb` stores 1 to `g_positionReady`. -/
def publishCount (L : Lib E) (numOutputs : Int) (out : AudioSampleFrame) (s : State E) : Nat :=
  ((newEvents s (audio_process_cb L numOutputs out s).1).filter Event.isPublish).length

/-- Quantum `k` of the run publishes a snapshot. -/
def publishesAt (L : Lib E) (q : Nat → Quantum) (s : State E) (k : Nat) : Prop :=
  0 < publishCount L (q k).numOutputs (q k).out ((q k).pre (runQuanta L q s k))

instance publishesAt.instDecidable (L : Lib E) (q : Nat → Quantum) (s : State E) (k : Nat) :
    Decidable (publishesAt L q s k) :=
  Nat.decLt _ _

/-- The callback started in `s` renders at least one frame of a loaded module
and the engine is then on row `row`. -/
def RendersRow (L : Lib E) (numOutputs : Int) (out : AudioSampleFrame) (s : State E)
    (row : Int) : Prop :=
  1 ≤ numOutputs ∧ 2 ≤ out.numberOfChannels
    ∧ (drainCommands L s).g_module.isLoaded = true
    ∧ 1 ≤ ((drainCommands L s).g_module.readInterleavedStereo L (effectiveRate out) 128
        (fun _ => 0)).2.1
    ∧ ((drainCommands L s).g_module.readInterleavedStereo L (effectiveRate out) 128
        (fun _ => 0)).1.getCurrentRow L = row

/-- The callback started in `s` finds a module loaded and the engine renders no
frame (the end-of-stream path). -/
def EndsStream (L : Lib E) (numOutputs : Int) (out : AudioSampleFrame) (s : State E) : Prop :=
  1 ≤ numOutputs ∧ 2 ≤ out.numberOfChannels
    ∧ (drainCommands L s).g_module.isLoaded = true
    ∧ ((drainCommands L s).g_module.readInterleavedStereo L (effectiveRate out) 128
        (fun _ => 0)).2.1 = 0

/-- The callback started in `s` returns before it calls the engine: there is no
stereo output, or no module is loaded once the commands are drained. -/
def RendersNothing (L : Lib E) (numOutputs : Int) (out : AudioSampleFrame) (s : State E) :
    Prop :=
  numOutputs < 1 ∨ out.numberOfChannels < 2 ∨ (drainCommands L s).g_module.isLoaded = false

/-- The `double` that line 158 assigns to `elapsed`:
`(double)frames / (double)(sample rate)`. -/
def elapsedOf (L : Lib E) (out : AudioSampleFrame) : ℚ :=
  L.roundDouble (128 / (effectiveRate out : ℚ))

/-- The `double` that `timeSinceLastReport` holds after line 160,
`timeSinceLastReport += elapsed`, in a callback started in `s`. -/
def accumulatedOf (L : Lib E) (out : AudioSampleFrame) (s : State E) : ℚ :=
  L.roundDouble (s.timeSinceLastReport + elapsedOf L out)

/-- The `double` that the literal `0.016` of line 165 denotes. -/
def thresholdOf (L : Lib E) : ℚ :=
  L.roundDouble (16 / 1000)

/-- The unit roundoff of IEEE binary64. -/
def unitRoundoff : ℚ := 1 / 2 ^ 53

/-- The rounding has relative error at most `2^-53` on the reals between `2^-32`
and `2^8`, as rounding to the nearest binary64 has on its whole normal range. -/
def RoundsToNearest (fl : ℚ → ℚ) : Prop :=
  ∀ x : ℚ, 1 / 2 ^ 32 ≤ x → x ≤ 256 →
    (1 - unitRoundoff) * x ≤ fl x ∧ fl x ≤ (1 + unitRoundoff) * x

/-- The arithmetic under which the throttle interval is measured: either the
`double` operations are exact, or they round to nearest and the sample rate
fits the 32-bit `int` that holds it. -/
def ThrottleArithmetic (L : Lib E) (rate : Int) : Prop :=
  (∀ x : ℚ, L.roundDouble x = x) ∨ (RoundsToNearest L.roundDouble ∧ rate < 2 ^ 31)

/-- The row carried by the most recent publish event, if any. -/
def lastPublishedRow : List Event → Option Int
  | [] => none
  | e :: rest =>
    match lastPublishedRow rest, e with
    | some r, _ => some r
    | none, Event.publish r => some r
    | none, _ => none

/-- The event recorded by the load command of a callback started in `s`. -/
def loadEvents (s : State E) : List Event :=
  if s.g_cmdLoad = 1 then
    match s.g_moduleData with
    | some data => if s.g_moduleDataSize > 0 then [Event.load data s.g_moduleDataSize] else []
    | none => []
  else []

/-- The event recorded by the seek command of a callback started in `s`. -/
def seekEvents (s : State E) : List Event :=
  if s.g_cmdSeekOrder ≥ 0 ∧ s.g_cmdSeekRow ≥ 0 then
    [Event.seekOrderRow s.g_cmdSeekOrder s.g_cmdSeekRow]
  else []

/-- The event recorded by the loop command of a callback started in `s`. -/
def loopEvents (s : State E) : List Event :=
  if s.g_cmdSetLoop ≥ 0 then [Event.setRepeatCount (if s.g_cmdSetLoop ≠ 0 then -1 else 0)]
  else []

/-- The event recorded by the volume command of a callback started in `s`. -/
def volumeEvents (s : State E) : List Event :=
  if s.g_cmdVolume ≥ 0 then [Event.setVolume s.g_cmdVolume] else []

/-- The events recorded by the render phase of a callback whose command phase
ended in `s`. -/
def renderEvents (L : Lib E) (numOutputs : Int) (out : AudioSampleFrame) (s : State E) :
    List Event :=
  newEvents s (renderQuantum L numOutputs out s).1

/-- The states a session can be in: the initial state, and any state reached
from one by a control call or by a callback. -/
inductive Reachable (L : Lib E) : State E → Prop where
  | init : Reachable L State.init
  | control (op : ControlOp) (s : State E) : Reachable L s → Reachable L (op.apply s)
  | quantum (numOutputs : Int) (out : AudioSampleFrame) (s : State E) :
      Reachable L s → Reachable L (audio_process_cb L numOutputs out s).1

/-! ## A small concrete engine, used to evaluate the code on concrete inputs -/

/-- State of the test engine: the results its next reads will give (frames
rendered, row reached), the row it is on, and its repeat count. -/
structure ToyEngine where
  script : List (Nat × Int)
  row : Int
  repeatCount : Int
deriving DecidableEq

/-- Reads a script off the bytes of a test module, two bytes per read. -/
def decodeScript : List Nat → List (Nat × Int)
  | a :: b :: rest => (a, (b : Int)) :: decodeScript rest
  | _ => []

/-- A test implementation of the libopenmpt API: a module is accepted when its
first byte is 77; each read gives the next scripted result, and a full quantum
on the current row once the script is used up; sample `i` of a read is `i + 1`. -/
def toyLib : Lib ToyEngine :=
  { create_from_memory2 := fun data _ =>
      match data with
      | 77 :: rest => some { script := decodeScript rest, row := 0, repeatCount := 0 }
      | _ => none
    RENDER_INTERPOLATIONFILTER_LENGTH := 3
    set_render_param := fun e _ _ => e
    set_repeat_count := fun e c => { e with repeatCount := c }
    set_position_order_row := fun e _ r => { e with row := r }
    set_position_seconds := fun e _ => e
    read_interleaved_float_stereo := fun e _ count =>
      match e.script with
      | [] => (e, count, fun i => (i : ℚ) + 1)
      | (n, r) :: rest => ({ e with script := rest, row := r }, n, fun i => (i : ℚ) + 1)
    get_position_seconds := fun _ => 0
    get_current_row := fun e => e.row
    get_current_order := fun _ => 0
    get_current_estimated_bpm := fun _ => 125
    get_num_channels := fun _ => 4
    get_order_pattern := fun _ o => o
    get_current_channel_vu_mono := fun _ _ => 0
    roundDouble := fun x => x }

/-- A stereo output at 48000 Hz whose samples all hold 7 before the callback. -/
def toyOut : AudioSampleFrame :=
  { numberOfChannels := 2, samplesPerSec := 48000, data := fun _ => 7 }

/-- A test state with a module loaded whose script is used up. -/
def toyLoaded : State ToyEngine :=
  { (State.init : State ToyEngine) with
    g_module := { mod_ := some { script := [], row := 5, repeatCount := -1 }, volume_ := 1 } }

/-- A test state with a module loaded whose next read renders no frame. -/
def toyEnding : State ToyEngine :=
  { (State.init : State ToyEngine) with
    g_module := { mod_ := some { script := [(0, 5)], row := 5, repeatCount := 0 }, volume_ := 1 }
    g_lastReportedRow := 5
    timeSinceLastReport := 1 / 375 }

/-- The initial state after `load_module` of a five-byte test module whose first
read renders 128 frames on row 5 and whose second read renders no frame. -/
def c5s0 : State ToyEngine :=
  (load_module (some [77, 128, 5, 0, 5]) 5 true State.init).1

/-- The state after the first callback: the module is loaded, a full quantum is
rendered and a snapshot with row 5 is published. -/
def c5s1 : State ToyEngine :=
  (audio_process_cb toyLib 1 toyOut c5s0).1

/-- The state after the second callback: the engine rendered no frame and the
end-of-stream snapshot with row -1 is published. -/
def c5s2 : State ToyEngine :=
  (audio_process_cb toyLib 1 toyOut c5s1).1

/-- A test state with a module loaded whose next read renders 3 frames. -/
def toyShort : State ToyEngine :=
  { (State.init : State ToyEngine) with
    g_module := { mod_ := some { script := [(3, 5)], row := 5, repeatCount := 0 }, volume_ := 1 } }

/-- A test run: every quantum passes the stereo 48000 Hz output and no control
call is made in between. -/
def toyQuanta : Nat → Quantum :=
  fun _ => { ops := [], numOutputs := 1, out := toyOut }

/-- The state `c5s0`, in which the load of the five-byte test module is still
pending, after a further `load_module` of three bytes whose allocation fails. -/
def c11s : State ToyEngine :=
  (load_module (some [77, 1, 1]) 3 false c5s0).1

/-- The state `c5s2` (module loaded, end-of-stream snapshot ready) after the
control thread has submitted a one-byte load and `set_loop(1)`. -/
def c12s : State ToyEngine :=
  set_loop 1 (load_module (some [77]) 1 true c5s2).1

/-! ## Helper lemmas: what each phase of the callback leaves alone -/

section Frame

variable (L : Lib E)

theorem rat_one_not_le_zero : ¬ ((1 : ℚ) ≤ 0) := by norm_num

theorem rat_one_not_lt : ¬ ((1 : ℚ) < 999 / 1000) := by norm_num

theorem unload_volume (m : OpenMPTModule E) : m.unload.volume_ = m.volume_ := by
  unfold OpenMPTModule.unload; split <;> rfl

theorem unload_mod (m : OpenMPTModule E) : m.unload.mod_ = none := by
  unfold OpenMPTModule.unload; split
  · rfl
  · assumption

theorem load_volume (m : OpenMPTModule E) (data : List Nat) (n : Nat) :
    (m.load L data n).1.volume_ = m.volume_ := by
  unfold OpenMPTModule.load
  cases L.create_from_memory2 data n <;> simp [unload_volume]

theorem readInterleavedStereo_volume (m : OpenMPTModule E) (rate frames : Int) (b : Buf) :
    (m.readInterleavedStereo L rate frames b).1.volume_ = m.volume_ := by
  unfold OpenMPTModule.readInterleavedStereo
  cases m.mod_ with
  | none => rfl
  | some e => simp only []; split <;> rfl

theorem seekOrderRow_volume (m : OpenMPTModule E) (o r : Int) :
    (m.seekOrderRow L o r).volume_ = m.volume_ := by
  unfold OpenMPTModule.seekOrderRow; split <;> rfl

theorem setRepeatCount_volume (m : OpenMPTModule E) (c : Int) :
    (m.setRepeatCount L c).volume_ = m.volume_ := by
  unfold OpenMPTModule.setRepeatCount; split <;> rfl

@[simp]
theorem drainLoad_g_cmdSeekOrder (s : State E) : (drainLoad L s).g_cmdSeekOrder = s.g_cmdSeekOrder := by
  unfold drainLoad; dsimp only; repeat' split
  all_goals rfl

@[simp]
theorem drainLoad_g_cmdSeekRow (s : State E) : (drainLoad L s).g_cmdSeekRow = s.g_cmdSeekRow := by
  unfold drainLoad; dsimp only; repeat' split
  all_goals rfl

@[simp]
theorem drainLoad_g_cmdSetLoop (s : State E) : (drainLoad L s).g_cmdSetLoop = s.g_cmdSetLoop := by
  unfold drainLoad; dsimp only; repeat' split
  all_goals rfl

@[simp]
theorem drainLoad_g_cmdVolume (s : State E) : (drainLoad L s).g_cmdVolume = s.g_cmdVolume := by
  unfold drainLoad; dsimp only; repeat' split
  all_goals rfl

@[simp]
theorem drainLoad_g_positionInfo (s : State E) : (drainLoad L s).g_positionInfo = s.g_positionInfo := by
  unfold drainLoad; dsimp only; repeat' split
  all_goals rfl

@[simp]
theorem drainLoad_g_positionReady (s : State E) : (drainLoad L s).g_positionReady = s.g_positionReady := by
  unfold drainLoad; dsimp only; repeat' split
  all_goals rfl

@[simp]
theorem drainLoad_g_audioCtx (s : State E) : (drainLoad L s).g_audioCtx = s.g_audioCtx := by
  unfold drainLoad; dsimp only; repeat' split
  all_goals rfl

@[simp]
theorem drainLoad_g_workletNode (s : State E) : (drainLoad L s).g_workletNode = s.g_workletNode := by
  unfold drainLoad; dsimp only; repeat' split
  all_goals rfl

@[simp]
theorem drainLoad_g_lastReportedRow (s : State E) : (drainLoad L s).g_lastReportedRow = s.g_lastReportedRow := by
  unfold drainLoad; dsimp only; repeat' split
  all_goals rfl

@[simp]
theorem drainLoad_g_lastReportTimeS (s : State E) : (drainLoad L s).g_lastReportTimeS = s.g_lastReportTimeS := by
  unfold drainLoad; dsimp only; repeat' split
  all_goals rfl

@[simp]
theorem drainLoad_timeSinceLastReport (s : State E) : (drainLoad L s).timeSinceLastReport = s.timeSinceLastReport := by
  unfold drainLoad; dsimp only; repeat' split
  all_goals rfl

@[simp]
theorem drainSeek_g_moduleData (s : State E) : (drainSeek L s).g_moduleData = s.g_moduleData := by
  unfold drainSeek; dsimp only; repeat' split
  all_goals rfl

@[simp]
theorem drainSeek_g_moduleDataSize (s : State E) : (drainSeek L s).g_moduleDataSize = s.g_moduleDataSize := by
  unfold drainSeek; dsimp only; repeat' split
  all_goals rfl

@[simp]
theorem drainSeek_g_cmdLoad (s : State E) : (drainSeek L s).g_cmdLoad = s.g_cmdLoad := by
  unfold drainSeek; dsimp only; repeat' split
  all_goals rfl

@[simp]
theorem drainSeek_g_cmdSetLoop (s : State E) : (drainSeek L s).g_cmdSetLoop = s.g_cmdSetLoop := by
  unfold drainSeek; dsimp only; repeat' split
  all_goals rfl

@[simp]
theorem drainSeek_g_cmdVolume (s : State E) : (drainSeek L s).g_cmdVolume = s.g_cmdVolume := by
  unfold drainSeek; dsimp only; repeat' split
  all_goals rfl

@[simp]
theorem drainSeek_g_positionInfo (s : State E) : (drainSeek L s).g_positionInfo = s.g_positionInfo := by
  unfold drainSeek; dsimp only; repeat' split
  all_goals rfl

@[simp]
theorem drainSeek_g_positionReady (s : State E) : (drainSeek L s).g_positionReady = s.g_positionReady := by
  unfold drainSeek; dsimp only; repeat' split
  all_goals rfl

@[simp]
theorem drainSeek_g_audioCtx (s : State E) : (drainSeek L s).g_audioCtx = s.g_audioCtx := by
  unfold drainSeek; dsimp only; repeat' split
  all_goals rfl

@[simp]
theorem drainSeek_g_workletNode (s : State E) : (drainSeek L s).g_workletNode = s.g_workletNode := by
  unfold drainSeek; dsimp only; repeat' split
  all_goals rfl

@[simp]
theorem drainSeek_g_lastReportedRow (s : State E) : (drainSeek L s).g_lastReportedRow = s.g_lastReportedRow := by
  unfold drainSeek; dsimp only; repeat' split
  all_goals rfl

@[simp]
theorem drainSeek_g_lastReportTimeS (s : State E) : (drainSeek L s).g_lastReportTimeS = s.g_lastReportTimeS := by
  unfold drainSeek; dsimp only; repeat' split
  all_goals rfl

@[simp]
theorem drainSeek_timeSinceLastReport (s : State E) : (drainSeek L s).timeSinceLastReport = s.timeSinceLastReport := by
  unfold drainSeek; dsimp only; repeat' split
  all_goals rfl

@[simp]
theorem drainLoop_g_moduleData (s : State E) : (drainLoop L s).g_moduleData = s.g_moduleData := by
  unfold drainLoop; dsimp only; repeat' split
  all_goals rfl

@[simp]
theorem drainLoop_g_moduleDataSize (s : State E) : (drainLoop L s).g_moduleDataSize = s.g_moduleDataSize := by
  unfold drainLoop; dsimp only; repeat' split
  all_goals rfl

@[simp]
theorem drainLoop_g_cmdLoad (s : State E) : (drainLoop L s).g_cmdLoad = s.g_cmdLoad := by
  unfold drainLoop; dsimp only; repeat' split
  all_goals rfl

@[simp]
theorem drainLoop_g_cmdSeekOrder (s : State E) : (drainLoop L s).g_cmdSeekOrder = s.g_cmdSeekOrder := by
  unfold drainLoop; dsimp only; repeat' split
  all_goals rfl

@[simp]
theorem drainLoop_g_cmdSeekRow (s : State E) : (drainLoop L s).g_cmdSeekRow = s.g_cmdSeekRow := by
  unfold drainLoop; dsimp only; repeat' split
  all_goals rfl

@[simp]
theorem drainLoop_g_cmdVolume (s : State E) : (drainLoop L s).g_cmdVolume = s.g_cmdVolume := by
  unfold drainLoop; dsimp only; repeat' split
  all_goals rfl

@[simp]
theorem drainLoop_g_positionInfo (s : State E) : (drainLoop L s).g_positionInfo = s.g_positionInfo := by
  unfold drainLoop; dsimp only; repeat' split
  all_goals rfl

@[simp]
theorem drainLoop_g_positionReady (s : State E) : (drainLoop L s).g_positionReady = s.g_positionReady := by
  unfold drainLoop; dsimp only; repeat' split
  all_goals rfl

@[simp]
theorem drainLoop_g_audioCtx (s : State E) : (drainLoop L s).g_audioCtx = s.g_audioCtx := by
  unfold drainLoop; dsimp only; repeat' split
  all_goals rfl

@[simp]
theorem drainLoop_g_workletNode (s : State E) : (drainLoop L s).g_workletNode = s.g_workletNode := by
  unfold drainLoop; dsimp only; repeat' split
  all_goals rfl

@[simp]
theorem drainLoop_g_lastReportedRow (s : State E) : (drainLoop L s).g_lastReportedRow = s.g_lastReportedRow := by
  unfold drainLoop; dsimp only; repeat' split
  all_goals rfl

@[simp]
theorem drainLoop_g_lastReportTimeS (s : State E) : (drainLoop L s).g_lastReportTimeS = s.g_lastReportTimeS := by
  unfold drainLoop; dsimp only; repeat' split
  all_goals rfl

@[simp]
theorem drainLoop_timeSinceLastReport (s : State E) : (drainLoop L s).timeSinceLastReport = s.timeSinceLastReport := by
  unfold drainLoop; dsimp only; repeat' split
  all_goals rfl

@[simp]
theorem drainVolume_g_moduleData (s : State E) : (drainVolume s).g_moduleData = s.g_moduleData := by
  unfold drainVolume; dsimp only; repeat' split
  all_goals rfl

@[simp]
theorem drainVolume_g_moduleDataSize (s : State E) : (drainVolume s).g_moduleDataSize = s.g_moduleDataSize := by
  unfold drainVolume; dsimp only; repeat' split
  all_goals rfl

@[simp]
theorem drainVolume_g_cmdLoad (s : State E) : (drainVolume s).g_cmdLoad = s.g_cmdLoad := by
  unfold drainVolume; dsimp only; repeat' split
  all_goals rfl

@[simp]
theorem drainVolume_g_cmdSeekOrder (s : State E) : (drainVolume s).g_cmdSeekOrder = s.g_cmdSeekOrder := by
  unfold drainVolume; dsimp only; repeat' split
  all_goals rfl

@[simp]
theorem drainVolume_g_cmdSeekRow (s : State E) : (drainVolume s).g_cmdSeekRow = s.g_cmdSeekRow := by
  unfold drainVolume; dsimp only; repeat' split
  all_goals rfl

@[simp]
theorem drainVolume_g_cmdSetLoop (s : State E) : (drainVolume s).g_cmdSetLoop = s.g_cmdSetLoop := by
  unfold drainVolume; dsimp only; repeat' split
  all_goals rfl

@[simp]
theorem drainVolume_g_positionInfo (s : State E) : (drainVolume s).g_positionInfo = s.g_positionInfo := by
  unfold drainVolume; dsimp only; repeat' split
  all_goals rfl

@[simp]
theorem drainVolume_g_positionReady (s : State E) : (drainVolume s).g_positionReady = s.g_positionReady := by
  unfold drainVolume; dsimp only; repeat' split
  all_goals rfl

@[simp]
theorem drainVolume_g_audioCtx (s : State E) : (drainVolume s).g_audioCtx = s.g_audioCtx := by
  unfold drainVolume; dsimp only; repeat' split
  all_goals rfl

@[simp]
theorem drainVolume_g_workletNode (s : State E) : (drainVolume s).g_workletNode = s.g_workletNode := by
  unfold drainVolume; dsimp only; repeat' split
  all_goals rfl

@[simp]
theorem drainVolume_g_lastReportedRow (s : State E) : (drainVolume s).g_lastReportedRow = s.g_lastReportedRow := by
  unfold drainVolume; dsimp only; repeat' split
  all_goals rfl

@[simp]
theorem drainVolume_g_lastReportTimeS (s : State E) : (drainVolume s).g_lastReportTimeS = s.g_lastReportTimeS := by
  unfold drainVolume; dsimp only; repeat' split
  all_goals rfl

@[simp]
theorem drainVolume_timeSinceLastReport (s : State E) : (drainVolume s).timeSinceLastReport = s.timeSinceLastReport := by
  unfold drainVolume; dsimp only; repeat' split
  all_goals rfl

@[simp]
theorem renderQuantum_g_moduleData (numOutputs : Int) (out : AudioSampleFrame) (s : State E) :
    (renderQuantum L numOutputs out s).1.g_moduleData = s.g_moduleData := by
  unfold renderQuantum; dsimp only; repeat' split
  all_goals rfl

@[simp]
theorem renderQuantum_g_moduleDataSize (numOutputs : Int) (out : AudioSampleFrame) (s : State E) :
    (renderQuantum L numOutputs out s).1.g_moduleDataSize = s.g_moduleDataSize := by
  unfold renderQuantum; dsimp only; repeat' split
  all_goals rfl

@[simp]
theorem renderQuantum_g_cmdLoad (numOutputs : Int) (out : AudioSampleFrame) (s : State E) :
    (renderQuantum L numOutputs out s).1.g_cmdLoad = s.g_cmdLoad := by
  unfold renderQuantum; dsimp only; repeat' split
  all_goals rfl

@[simp]
theorem renderQuantum_g_cmdSeekOrder (numOutputs : Int) (out : AudioSampleFrame) (s : State E) :
    (renderQuantum L numOutputs out s).1.g_cmdSeekOrder = s.g_cmdSeekOrder := by
  unfold renderQuantum; dsimp only; repeat' split
  all_goals rfl

@[simp]
theorem renderQuantum_g_cmdSeekRow (numOutputs : Int) (out : AudioSampleFrame) (s : State E) :
    (renderQuantum L numOutputs out s).1.g_cmdSeekRow = s.g_cmdSeekRow := by
  unfold renderQuantum; dsimp only; repeat' split
  all_goals rfl

@[simp]
theorem renderQuantum_g_cmdSetLoop (numOutputs : Int) (out : AudioSampleFrame) (s : State E) :
    (renderQuantum L numOutputs out s).1.g_cmdSetLoop = s.g_cmdSetLoop := by
  unfold renderQuantum; dsimp only; repeat' split
  all_goals rfl

@[simp]
theorem renderQuantum_g_cmdVolume (numOutputs : Int) (out : AudioSampleFrame) (s : State E) :
    (renderQuantum L numOutputs out s).1.g_cmdVolume = s.g_cmdVolume := by
  unfold renderQuantum; dsimp only; repeat' split
  all_goals rfl

@[simp]
theorem renderQuantum_g_audioCtx (numOutputs : Int) (out : AudioSampleFrame) (s : State E) :
    (renderQuantum L numOutputs out s).1.g_audioCtx = s.g_audioCtx := by
  unfold renderQuantum; dsimp only; repeat' split
  all_goals rfl

@[simp]
theorem renderQuantum_g_workletNode (numOutputs : Int) (out : AudioSampleFrame) (s : State E) :
    (renderQuantum L numOutputs out s).1.g_workletNode = s.g_workletNode := by
  unfold renderQuantum; dsimp only; repeat' split
  all_goals rfl

@[simp]
theorem drainLoad_volume (s : State E) :
    (drainLoad L s).g_module.volume_ = s.g_module.volume_ := by
  unfold drainLoad; dsimp only; repeat' split
  all_goals simp [load_volume]

@[simp]
theorem drainSeek_volume (s : State E) :
    (drainSeek L s).g_module.volume_ = s.g_module.volume_ := by
  unfold drainSeek; dsimp only; repeat' split
  all_goals simp [seekOrderRow_volume]

@[simp]
theorem drainLoop_volume (s : State E) :
    (drainLoop L s).g_module.volume_ = s.g_module.volume_ := by
  unfold drainLoop; dsimp only; repeat' split
  all_goals simp [setRepeatCount_volume]

@[simp]
theorem renderQuantum_volume (numOutputs : Int) (out : AudioSampleFrame) (s : State E) :
    (renderQuantum L numOutputs out s).1.g_module.volume_ = s.g_module.volume_ := by
  unfold renderQuantum; dsimp only; repeat' split
  all_goals simp [readInterleavedStereo_volume]

theorem seekOrderRow_isSome (m : OpenMPTModule E) (o r : Int) :
    (m.seekOrderRow L o r).mod_.isSome = m.mod_.isSome := by
  unfold OpenMPTModule.seekOrderRow; split <;> simp_all

theorem setRepeatCount_isSome (m : OpenMPTModule E) (c : Int) :
    (m.setRepeatCount L c).mod_.isSome = m.mod_.isSome := by
  unfold OpenMPTModule.setRepeatCount; split <;> simp_all

theorem readInterleavedStereo_isSome (m : OpenMPTModule E) (rate frames : Int) (b : Buf) :
    (m.readInterleavedStereo L rate frames b).1.mod_.isSome = m.mod_.isSome := by
  unfold OpenMPTModule.readInterleavedStereo
  cases h : m.mod_ with
  | none => simp [h]
  | some e => dsimp only; split <;> rfl

@[simp]
theorem drainSeek_isSome (s : State E) :
    (drainSeek L s).g_module.mod_.isSome = s.g_module.mod_.isSome := by
  unfold drainSeek; dsimp only; repeat' split
  all_goals simp [seekOrderRow_isSome]

@[simp]
theorem drainLoop_isSome (s : State E) :
    (drainLoop L s).g_module.mod_.isSome = s.g_module.mod_.isSome := by
  unfold drainLoop; dsimp only; repeat' split
  all_goals simp [setRepeatCount_isSome]

@[simp]
theorem drainVolume_mod (s : State E) :
    (drainVolume s).g_module.mod_ = s.g_module.mod_ := by
  unfold drainVolume; dsimp only; repeat' split
  all_goals rfl

@[simp]
theorem renderQuantum_isSome (numOutputs : Int) (out : AudioSampleFrame) (s : State E) :
    (renderQuantum L numOutputs out s).1.g_module.mod_.isSome = s.g_module.mod_.isSome := by
  unfold renderQuantum; dsimp only; repeat' split
  all_goals simp [readInterleavedStereo_isSome]

/-- Whether a module is loaded after the callback is decided by the load command alone. -/
theorem audio_process_cb_isLoaded (numOutputs : Int) (out : AudioSampleFrame) (s : State E) :
    (audio_process_cb L numOutputs out s).1.g_module.isLoaded
      = (drainLoad L s).g_module.isLoaded := by
  simp [audio_process_cb, drainCommands, OpenMPTModule.isLoaded]

/-- The load command when a request with a non-empty transfer buffer is pending. -/
theorem drainLoad_pending (s : State E) (data : List Nat) (h1 : s.g_cmdLoad = 1)
    (h2 : s.g_moduleData = some data) (h3 : 0 < s.g_moduleDataSize) :
    drainLoad L s =
      { s with
        g_cmdLoad := 0
        g_module := (s.g_module.load L data s.g_moduleDataSize).1
        g_moduleData := none
        g_moduleDataSize := 0
        events := s.events ++ [Event.load data s.g_moduleDataSize] } := by
  unfold drainLoad
  simp [h1, h2, h3]

/-- The load command when no request is pending. -/
theorem drainLoad_idle (s : State E) (h1 : s.g_cmdLoad ≠ 1) : drainLoad L s = s := by
  unfold drainLoad
  simp [h1]

theorem load_failed (m : OpenMPTModule E) (data : List Nat) (n : Nat)
    (h : L.create_from_memory2 data n = none) : (m.load L data n).1.mod_ = none := by
  unfold OpenMPTModule.load
  simp [h]

theorem readInterleavedStereo_count (m : OpenMPTModule E) (e : E) (rate frames : Int) (b : Buf)
    (h : m.mod_ = some e) :
    (m.readInterleavedStereo L rate frames b).2.1
      = wrapInt32 (L.read_interleaved_float_stereo e rate frames.toNat).2.1 := by
  unfold OpenMPTModule.readInterleavedStereo
  simp only [h]
  split <;> rfl

theorem readInterleavedStereo_mod (m : OpenMPTModule E) (e : E) (rate frames : Int) (b : Buf)
    (h : m.mod_ = some e) :
    (m.readInterleavedStereo L rate frames b).1.mod_
      = some (L.read_interleaved_float_stereo e rate frames.toNat).1 := by
  unfold OpenMPTModule.readInterleavedStereo
  simp only [h]
  split <;> rfl

/-- The callback's command phase when no command is pending. -/
theorem drainCommands_idle (s : State E) (h1 : s.g_cmdLoad ≠ 1) (h2 : s.g_cmdSeekOrder = -1)
    (h3 : s.g_cmdSeekRow = -1) (h4 : s.g_cmdSetLoop = -1) (h5 : s.g_cmdVolume = -1) :
    drainCommands L s = s := by
  have e1 : drainLoad L s = s := drainLoad_idle L s h1
  have e2 : drainSeek L s = s := by
    unfold drainSeek
    simp only [h2, h3]
    rw [if_neg (by decide)]
    cases s
    simp_all
  have e3 : drainLoop L s = s := by
    unfold drainLoop
    simp only [h4]
    rw [if_neg (by decide)]
    cases s
    simp_all
  have e4 : drainVolume s = s := by
    unfold drainVolume
    simp only [h5]
    rw [if_neg (by norm_num)]
    cases s
    simp_all
  rw [drainCommands, e1, e2, e3, e4]

/-- The render phase on the end-of-stream path (lines 132-140). -/
theorem renderQuantum_ended (numOutputs : Int) (out : AudioSampleFrame) (s : State E)
    (hn : 1 ≤ numOutputs) (hc : 2 ≤ out.numberOfChannels) (hl : s.g_module.isLoaded = true)
    (hr : (s.g_module.readInterleavedStereo L (effectiveRate out) 128 (fun _ => 0)).2.1 = 0) :
    renderQuantum L numOutputs out s =
      ({ s with
          g_module := (s.g_module.readInterleavedStereo L (effectiveRate out) 128 (fun _ => 0)).1
          g_positionInfo := { s.g_positionInfo with currentRow := -1 }
          g_positionReady := 1
          events := s.events ++ [Event.readInterleavedStereo (effectiveRate out) 128,
            Event.publish (-1)] },
        { out with data := memsetZero out.data 0 (128 * out.numberOfChannels).toNat }) := by
  unfold renderQuantum
  rw [if_neg (by omega)]
  simp [hl, hr]

/-- The de-interleave loop in closed form, for at most `frames` iterations. -/
theorem deinterleaveLoop_apply (b : Buf) (frames : Nat) (o : Buf) (n : Nat) (hn : n ≤ frames)
    (j : Nat) :
    deinterleaveLoop b frames n o j
      = if j < n then b (j * 2)
        else if frames ≤ j ∧ j < frames + n then b ((j - frames) * 2 + 1) else o j := by
  induction n with
  | zero =>
    have h0 : ¬ (frames ≤ j ∧ j < frames) := by omega
    simp only [deinterleaveLoop, Nat.not_lt_zero, Nat.add_zero, if_false]
    rw [if_neg h0]
  | succ k ih =>
    have ih1 := ih (by omega)
    simp only [deinterleaveLoop, Buf.set]
    by_cases h1 : j = frames + k
    · subst h1
      have h2 : ¬ (frames + k < k + 1) := by omega
      simp [h2]
    · rw [if_neg h1]
      by_cases h3 : j = k
      · subst h3
        simp
      · rw [if_neg h3, ih1]
        by_cases h4 : j < k
        · have h5 : j < k + 1 := by omega
          simp [h4, h5]
        · have h5 : ¬ j < k + 1 := by omega
          rw [if_neg h4, if_neg h5]
          by_cases h6 : frames ≤ j ∧ j < frames + k
          · have h7 : frames ≤ j ∧ j < frames + (k + 1) := by omega
            rw [if_pos h6, if_pos h7]
          · have h7 : ¬ (frames ≤ j ∧ j < frames + (k + 1)) := by omega
            rw [if_neg h6, if_neg h7]

/-- The output samples left by the render phase when at least one frame was
rendered (lines 142-153). -/
theorem renderQuantum_data (numOutputs : Int) (out : AudioSampleFrame) (s : State E)
    (hn : 1 ≤ numOutputs) (hc : 2 ≤ out.numberOfChannels) (hl : s.g_module.isLoaded = true)
    (hr : (s.g_module.readInterleavedStereo L (effectiveRate out) 128 (fun _ => 0)).2.1 ≠ 0) :
    (renderQuantum L numOutputs out s).2.data =
      if (s.g_module.readInterleavedStereo L (effectiveRate out) 128 (fun _ => 0)).2.1 < 128 then
        memsetZero
          (memsetZero
            (deinterleaveLoop
              (s.g_module.readInterleavedStereo L (effectiveRate out) 128 (fun _ => 0)).2.2 128
              (s.g_module.readInterleavedStereo L (effectiveRate out) 128 (fun _ => 0)).2.1.toNat
              out.data)
            (s.g_module.readInterleavedStereo L (effectiveRate out) 128 (fun _ => 0)).2.1.toNat
            (128 - (s.g_module.readInterleavedStereo L (effectiveRate out) 128
              (fun _ => 0)).2.1).toNat)
          (128 + (s.g_module.readInterleavedStereo L (effectiveRate out) 128
            (fun _ => 0)).2.1.toNat)
          (128 - (s.g_module.readInterleavedStereo L (effectiveRate out) 128
            (fun _ => 0)).2.1).toNat
      else
        deinterleaveLoop
          (s.g_module.readInterleavedStereo L (effectiveRate out) 128 (fun _ => 0)).2.2 128
          (s.g_module.readInterleavedStereo L (effectiveRate out) 128 (fun _ => 0)).2.1.toNat
          out.data := by
  unfold renderQuantum
  rw [if_neg (by omega)]
  simp only [hl, hr, not_true_eq_false, if_false]
  split <;> rfl

theorem drainLoad_events (s : State E) : (drainLoad L s).events = s.events ++ loadEvents s := by
  unfold drainLoad loadEvents; dsimp only; repeat' split
  all_goals simp_all

theorem drainSeek_events (s : State E) : (drainSeek L s).events = s.events ++ seekEvents s := by
  unfold drainSeek seekEvents; dsimp only; repeat' split
  all_goals simp_all

theorem drainLoop_events (s : State E) : (drainLoop L s).events = s.events ++ loopEvents s := by
  unfold drainLoop loopEvents; dsimp only
  by_cases h : s.g_cmdSetLoop ≥ 0
  · simp only [h, if_true]
  · simp only [h, if_false, List.append_nil]

theorem drainVolume_events (s : State E) :
    (drainVolume s).events = s.events ++ volumeEvents s := by
  unfold drainVolume volumeEvents; dsimp only
  by_cases h : s.g_cmdVolume ≥ 0
  · simp only [h, if_true]
  · simp only [h, if_false, List.append_nil]

/-- The events recorded by the command phase, in source order. -/
theorem drainCommands_events (s : State E) :
    (drainCommands L s).events
      = s.events ++ (loadEvents s ++ seekEvents s ++ loopEvents s ++ volumeEvents s) := by
  have e1 : volumeEvents (drainLoop L (drainSeek L (drainLoad L s))) = volumeEvents s := by
    simp [volumeEvents]
  have e2 : loopEvents (drainSeek L (drainLoad L s)) = loopEvents s := by
    simp [loopEvents]
  have e3 : seekEvents (drainLoad L s) = seekEvents s := by
    simp [seekEvents]
  rw [drainCommands, drainVolume_events, drainLoop_events, drainSeek_events, drainLoad_events,
    e1, e2, e3]
  simp

/-- The render phase when at least one frame was rendered (lines 142-172). -/
theorem renderQuantum_rendered (numOutputs : Int) (out : AudioSampleFrame) (s : State E)
    (hn : 1 ≤ numOutputs) (hc : 2 ≤ out.numberOfChannels) (hl : s.g_module.isLoaded = true)
    (hr : (s.g_module.readInterleavedStereo L (effectiveRate out) 128 (fun _ => 0)).2.1 ≠ 0) :
    (renderQuantum L numOutputs out s).1 =
      if (s.g_module.readInterleavedStereo L (effectiveRate out) 128
            (fun _ => 0)).1.getCurrentRow L ≠ s.g_lastReportedRow
          ∨ accumulatedOf L out s ≥ thresholdOf L then
        { s with
          g_module := (s.g_module.readInterleavedStereo L (effectiveRate out) 128 (fun _ => 0)).1
          g_lastReportTimeS := L.roundDouble (s.g_lastReportTimeS + elapsedOf L out)
          g_lastReportedRow := (s.g_module.readInterleavedStereo L (effectiveRate out) 128
            (fun _ => 0)).1.getCurrentRow L
          timeSinceLastReport := 0
          g_positionInfo := (s.g_module.readInterleavedStereo L (effectiveRate out) 128
            (fun _ => 0)).1.fillPositionInfo L
          g_positionReady := 1
          events := s.events ++ [Event.readInterleavedStereo (effectiveRate out) 128,
            Event.publish ((s.g_module.readInterleavedStereo L (effectiveRate out) 128
              (fun _ => 0)).1.fillPositionInfo L).currentRow] }
      else
        { s with
          g_module := (s.g_module.readInterleavedStereo L (effectiveRate out) 128 (fun _ => 0)).1
          g_lastReportTimeS := L.roundDouble (s.g_lastReportTimeS + elapsedOf L out)
          timeSinceLastReport := accumulatedOf L out s
          events := s.events ++ [Event.readInterleavedStereo (effectiveRate out) 128] } := by
  unfold renderQuantum accumulatedOf thresholdOf elapsedOf
  rw [if_neg (by omega)]
  have hcast : ((128 : Int) : ℚ) = 128 := by norm_num
  simp only [hl, hr, not_true_eq_false, if_false, hcast]
  split
  · simp
  · simp

/-- The render phase only appends to the event record. -/
theorem renderQuantum_events (numOutputs : Int) (out : AudioSampleFrame) (s : State E) :
    (renderQuantum L numOutputs out s).1.events = s.events ++ renderEvents L numOutputs out s := by
  unfold renderEvents newEvents renderQuantum; dsimp only; repeat' split
  all_goals simp

/-- The events recorded by one callback: the four commands, then the render phase. -/
theorem audio_process_cb_newEvents (numOutputs : Int) (out : AudioSampleFrame) (s : State E) :
    newEvents s (audio_process_cb L numOutputs out s).1
      = loadEvents s ++ seekEvents s ++ loopEvents s ++ volumeEvents s
        ++ renderEvents L numOutputs out (drainCommands L s) := by
  unfold newEvents
  rw [audio_process_cb, renderQuantum_events, drainCommands_events]
  simp

theorem filter_isPublish_loadEvents (s : State E) :
    (loadEvents s).filter Event.isPublish = [] := by
  unfold loadEvents; repeat' split
  all_goals simp [Event.isPublish]

theorem filter_isPublish_seekEvents (s : State E) :
    (seekEvents s).filter Event.isPublish = [] := by
  unfold seekEvents; split <;> simp [Event.isPublish]

theorem filter_isPublish_loopEvents (s : State E) :
    (loopEvents s).filter Event.isPublish = [] := by
  unfold loopEvents; split <;> simp [Event.isPublish]

theorem filter_isPublish_volumeEvents (s : State E) :
    (volumeEvents s).filter Event.isPublish = [] := by
  unfold volumeEvents; split <;> simp [Event.isPublish]

/-- Only the render phase of a callback publishes. -/
theorem publishCount_eq (numOutputs : Int) (out : AudioSampleFrame) (s : State E) :
    publishCount L numOutputs out s
      = ((renderEvents L numOutputs out (drainCommands L s)).filter Event.isPublish).length := by
  unfold publishCount
  rw [audio_process_cb_newEvents]
  simp [filter_isPublish_loadEvents, filter_isPublish_seekEvents, filter_isPublish_loopEvents,
    filter_isPublish_volumeEvents]

/-- A callback publishes at most once. -/
theorem publishCount_le_one (numOutputs : Int) (out : AudioSampleFrame) (s : State E) :
    publishCount L numOutputs out s ≤ 1 := by
  rw [publishCount_eq]
  unfold renderEvents newEvents renderQuantum; dsimp only; repeat' split
  all_goals simp [Event.isPublish]

/-- The throttle step of a callback that renders at least one frame on row
`row`: whether it publishes, and the throttle variables it leaves. -/
theorem throttle_step (numOutputs : Int) (out : AudioSampleFrame) (s : State E) (row : Int)
    (h : RendersRow L numOutputs out s row) :
    (audio_process_cb L numOutputs out s).1 =
      if row ≠ s.g_lastReportedRow
          ∨ accumulatedOf L out s ≥ thresholdOf L then
        { drainCommands L s with
          g_module := ((drainCommands L s).g_module.readInterleavedStereo L (effectiveRate out)
            128 (fun _ => 0)).1
          g_lastReportTimeS := L.roundDouble (s.g_lastReportTimeS + elapsedOf L out)
          g_lastReportedRow := row
          timeSinceLastReport := 0
          g_positionInfo := ((drainCommands L s).g_module.readInterleavedStereo L
            (effectiveRate out) 128 (fun _ => 0)).1.fillPositionInfo L
          g_positionReady := 1
          events := (drainCommands L s).events
            ++ [Event.readInterleavedStereo (effectiveRate out) 128,
              Event.publish (((drainCommands L s).g_module.readInterleavedStereo L
                (effectiveRate out) 128 (fun _ => 0)).1.fillPositionInfo L).currentRow] }
      else
        { drainCommands L s with
          g_module := ((drainCommands L s).g_module.readInterleavedStereo L (effectiveRate out)
            128 (fun _ => 0)).1
          g_lastReportTimeS := L.roundDouble (s.g_lastReportTimeS + elapsedOf L out)
          timeSinceLastReport := accumulatedOf L out s
          events := (drainCommands L s).events
            ++ [Event.readInterleavedStereo (effectiveRate out) 128] } := by
  obtain ⟨hn, hc, hl, hr, hrow⟩ := h
  have hne : ((drainCommands L s).g_module.readInterleavedStereo L (effectiveRate out) 128
      (fun _ => 0)).2.1 ≠ 0 := by omega
  have f1 : (drainCommands L s).g_lastReportedRow = s.g_lastReportedRow := by
    simp [drainCommands]
  have f2 : (drainCommands L s).timeSinceLastReport = s.timeSinceLastReport := by
    simp [drainCommands]
  have f3 : (drainCommands L s).g_lastReportTimeS = s.g_lastReportTimeS := by
    simp [drainCommands]
  have f4 : accumulatedOf L out (drainCommands L s) = accumulatedOf L out s := by
    unfold accumulatedOf; rw [f2]
  rw [audio_process_cb, renderQuantum_rendered L numOutputs out _ hn hc hl hne, hrow, f1, f3, f4]
  split <;> simp [f1]

/-- Whether a callback that renders at least one frame on row `row` publishes. -/
theorem publishCount_pos_iff (numOutputs : Int) (out : AudioSampleFrame) (s : State E)
    (row : Int) (h : RendersRow L numOutputs out s row) :
    0 < publishCount L numOutputs out s
      ↔ (row ≠ s.g_lastReportedRow
          ∨ accumulatedOf L out s ≥ thresholdOf L) := by
  unfold publishCount newEvents
  rw [throttle_step L numOutputs out s row h]
  split
  · rename_i hc
    simp [drainCommands_events, Event.isPublish, filter_isPublish_loadEvents,
      filter_isPublish_seekEvents, filter_isPublish_loopEvents, filter_isPublish_volumeEvents, hc]
  · rename_i hc
    simp [drainCommands_events, Event.isPublish, filter_isPublish_loadEvents,
      filter_isPublish_seekEvents, filter_isPublish_loopEvents, filter_isPublish_volumeEvents, hc]

theorem effectiveRate_pos (out : AudioSampleFrame) : 0 < effectiveRate out := by
  unfold effectiveRate; split <;> omega

theorem controlOp_g_lastReportedRow (op : ControlOp) (s : State E) :
    (op.apply s).g_lastReportedRow = s.g_lastReportedRow := by
  cases op <;>
    simp only [ControlOp.apply, ModPlayer.load_module, ModPlayer.seek_order_row,
      ModPlayer.set_loop, ModPlayer.set_volume, ModPlayer.poll_position,
      ModPlayer.cleanup_audio] <;> repeat' split
  all_goals rfl

theorem controlOp_timeSinceLastReport (op : ControlOp) (s : State E) :
    (op.apply s).timeSinceLastReport = s.timeSinceLastReport := by
  cases op <;>
    simp only [ControlOp.apply, ModPlayer.load_module, ModPlayer.seek_order_row,
      ModPlayer.set_loop, ModPlayer.set_volume, ModPlayer.poll_position,
      ModPlayer.cleanup_audio] <;> repeat' split
  all_goals rfl

/-- Control calls leave the throttle variables alone. -/
theorem quantum_pre_throttle (q : Quantum) (s : State E) :
    (q.pre s).g_lastReportedRow = s.g_lastReportedRow
      ∧ (q.pre s).timeSinceLastReport = s.timeSinceLastReport := by
  unfold Quantum.pre
  induction q.ops generalizing s with
  | nil => exact ⟨rfl, rfl⟩
  | cons op rest ih =>
    simp only [List.foldl_cons]
    rw [(ih (op.apply s)).1, (ih (op.apply s)).2, controlOp_g_lastReportedRow,
      controlOp_timeSinceLastReport]
    exact ⟨rfl, rfl⟩

/-- The throttle variables after a callback that renders at least one frame. -/
theorem throttle_vars (numOutputs : Int) (out : AudioSampleFrame) (s : State E) (row : Int)
    (h : RendersRow L numOutputs out s row) :
    (audio_process_cb L numOutputs out s).1.g_lastReportedRow
        = (if 0 < publishCount L numOutputs out s then row else s.g_lastReportedRow)
      ∧ (audio_process_cb L numOutputs out s).1.timeSinceLastReport
        = (if 0 < publishCount L numOutputs out s then 0
            else accumulatedOf L out s) := by
  have hiff := publishCount_pos_iff L numOutputs out s row h
  rw [throttle_step L numOutputs out s row h]
  by_cases hc : row ≠ s.g_lastReportedRow
      ∨ accumulatedOf L out s ≥ thresholdOf L
  · rw [if_pos hc, if_pos (hiff.mpr hc), if_pos (hiff.mpr hc)]
    exact ⟨rfl, rfl⟩
  · rw [if_neg hc, if_neg (fun hp => hc (hiff.mp hp)), if_neg (fun hp => hc (hiff.mp hp))]
    simp [drainCommands]

theorem accumulatedOf_exact (out : AudioSampleFrame) (s : State E)
    (hexact : ∀ x : ℚ, L.roundDouble x = x) :
    accumulatedOf L out s = s.timeSinceLastReport + 128 / (effectiveRate out : ℚ) := by
  unfold accumulatedOf elapsedOf
  rw [hexact, hexact]

theorem thresholdOf_exact (hexact : ∀ x : ℚ, L.roundDouble x = x) :
    thresholdOf L = 16 / 1000 := by
  unfold thresholdOf
  rw [hexact]

/-- After a publishing quantum of a run that stays on one row at one sample
rate, in exact arithmetic, the last reported row is that row and the
accumulator holds at most the duration of the quanta since. -/
theorem run_throttle_invariant (q : Nat → Quantum) (s0 : State E) (n : Nat) (rate row : Int)
    (hexact : ∀ x : ℚ, L.roundDouble x = x)
    (hrate : ∀ k, k < n → effectiveRate (q k).out = rate)
    (hrend : ∀ k, k < n →
      RendersRow L (q k).numOutputs (q k).out ((q k).pre (runQuanta L q s0 k)) row)
    (i : Nat) (hi : i < n) (hp : publishesAt L q s0 i) (d : Nat) (hd : i + 1 + d ≤ n) :
    (runQuanta L q s0 (i + 1 + d)).g_lastReportedRow = row
      ∧ (runQuanta L q s0 (i + 1 + d)).timeSinceLastReport ≤ (d : ℚ) * (128 / (rate : ℚ)) := by
  have hel : (0 : ℚ) ≤ 128 / (rate : ℚ) := by
    have hpos : 0 < rate := by rw [← hrate i hi]; exact effectiveRate_pos _
    have : (0 : ℚ) < (rate : ℚ) := by exact_mod_cast hpos
    positivity
  induction d with
  | zero =>
    have hv := throttle_vars L (q i).numOutputs (q i).out _ row (hrend i hi)
    have hrun : runQuanta L q s0 (i + 1 + 0)
        = (audio_process_cb L (q i).numOutputs (q i).out ((q i).pre (runQuanta L q s0 i))).1 :=
      rfl
    unfold publishesAt at hp
    rw [hrun, hv.1, hv.2, if_pos hp, if_pos hp]
    simp
  | succ d ih =>
    have ih1 := ih (by omega)
    have hk : i + 1 + d < n := by omega
    have hv := throttle_vars L (q (i + 1 + d)).numOutputs (q (i + 1 + d)).out _ row
      (hrend _ hk)
    have hpre := quantum_pre_throttle (q (i + 1 + d)) (runQuanta L q s0 (i + 1 + d))
    have hrun : runQuanta L q s0 (i + 1 + (d + 1))
        = (audio_process_cb L (q (i + 1 + d)).numOutputs (q (i + 1 + d)).out
            ((q (i + 1 + d)).pre (runQuanta L q s0 (i + 1 + d)))).1 := rfl
    rw [hrun, hv.1, hv.2, accumulatedOf_exact L _ _ hexact, hpre.1, hpre.2, hrate _ hk]
    push_cast
    split
    · refine ⟨rfl, ?_⟩
      nlinarith
    · refine ⟨ih1.1, ?_⟩
      linarith [ih1.2]

/-- Two publishing quanta of a run that stays on one row at one sample rate, in
exact arithmetic, are separated by quanta lasting at least 16 ms in total. -/
theorem run_publish_gap_exact (q : Nat → Quantum) (s0 : State E) (n : Nat) (rate row : Int)
    (hexact : ∀ x : ℚ, L.roundDouble x = x)
    (hrate : ∀ k, k < n → effectiveRate (q k).out = rate)
    (hrend : ∀ k, k < n →
      RendersRow L (q k).numOutputs (q k).out ((q k).pre (runQuanta L q s0 k)) row)
    (i j : Nat) (hij : i < j) (hj : j < n) (hpi : publishesAt L q s0 i)
    (hpj : publishesAt L q s0 j) :
    (16 : ℚ) / 1000 ≤ ((j - i : Nat) : ℚ) * (128 / (rate : ℚ)) := by
  obtain ⟨d, rfl⟩ : ∃ d, j = i + 1 + d := ⟨j - i - 1, by omega⟩
  have inv := run_throttle_invariant L q s0 n rate row hexact hrate hrend i (by omega) hpi d
    (by omega)
  have hc := (publishCount_pos_iff L (q (i + 1 + d)).numOutputs (q (i + 1 + d)).out _ row
    (hrend _ hj)).mp hpj
  have hpre := quantum_pre_throttle (q (i + 1 + d)) (runQuanta L q s0 (i + 1 + d))
  rw [accumulatedOf_exact L _ _ hexact, thresholdOf_exact L hexact, hpre.1, hpre.2,
    hrate _ hj, inv.1] at hc
  have hsub : i + 1 + d - i = d + 1 := by omega
  rw [hsub]
  push_cast
  rcases hc with hc | hc
  · exact absurd rfl hc
  · linarith [inv.2]

theorem unitRoundoff_pos : 0 < unitRoundoff := by
  unfold unitRoundoff; positivity

/-- A power of `1 + u` is at most `1 + 2 m u` as long as `2 m u ≤ 1`. -/
theorem one_add_pow_le (u : ℚ) (hu : 0 ≤ u) (m : Nat) (h : 2 * (m : ℚ) * u ≤ 1) :
    (1 + u) ^ m ≤ 1 + 2 * (m : ℚ) * u := by
  induction m with
  | zero => simp
  | succ k ih =>
    have hk : 2 * (k : ℚ) * u ≤ 1 := by
      push_cast at h
      nlinarith
    have ih1 := ih hk
    have h1 : (1 + u) ^ (k + 1) = (1 + u) ^ k * (1 + u) := pow_succ _ _
    rw [h1]
    have h2 : (1 + u) ^ k * (1 + u) ≤ (1 + 2 * (k : ℚ) * u) * (1 + u) :=
      mul_le_mul_of_nonneg_right ih1 (by linarith)
    have h3 : 2 * (k : ℚ) * u * u ≤ u := by
      have := mul_le_mul_of_nonneg_right hk hu
      linarith
    push_cast
    nlinarith

/-- The rounded `elapsed` of a callback at a sample rate that fits an `int`. -/
theorem elapsed_bounds (fl : ℚ → ℚ) (hR : RoundsToNearest fl) (rate : Int) (h0 : 0 < rate)
    (h31 : rate < 2 ^ 31) :
    0 ≤ 128 / (rate : ℚ)
      ∧ 1 / 2 ^ 32 ≤ fl (128 / (rate : ℚ))
      ∧ fl (128 / (rate : ℚ)) ≤ 129
      ∧ fl (128 / (rate : ℚ)) ≤ (1 + unitRoundoff) * (128 / (rate : ℚ)) := by
  have hr0 : (0 : ℚ) < (rate : ℚ) := by exact_mod_cast h0
  have hr1 : (1 : ℚ) ≤ (rate : ℚ) := by exact_mod_cast h0
  have hr31 : (rate : ℚ) ≤ 2 ^ 31 := by exact_mod_cast h31.le
  have he0 : (1 : ℚ) / 2 ^ 24 ≤ 128 / (rate : ℚ) := by
    rw [div_le_div_iff₀ (by positivity) hr0]
    nlinarith
  have he1 : 128 / (rate : ℚ) ≤ 128 := by
    rw [div_le_iff₀ hr0]
    nlinarith
  have hb := hR (128 / (rate : ℚ)) (le_trans (by norm_num) he0) (le_trans he1 (by norm_num))
  unfold unitRoundoff at hb ⊢
  refine ⟨by positivity, ?_, ?_, hb.2⟩
  · have : (1 : ℚ) / 2 ^ 32 ≤ (1 - 1 / 2 ^ 53) * (1 / 2 ^ 24) := by norm_num
    have h2 : (1 - (1 : ℚ) / 2 ^ 53) * (1 / 2 ^ 24) ≤ (1 - 1 / 2 ^ 53) * (128 / (rate : ℚ)) :=
      mul_le_mul_of_nonneg_left he0 (by norm_num)
    linarith [hb.1]
  · have h2 : (1 + (1 : ℚ) / 2 ^ 53) * (128 / (rate : ℚ)) ≤ (1 + 1 / 2 ^ 53) * 128 :=
      mul_le_mul_of_nonneg_left he1 (by norm_num)
    have : (1 + (1 : ℚ) / 2 ^ 53) * 128 ≤ 129 := by norm_num
    linarith [hb.2]

/-- The rounded threshold `0.016`. -/
theorem threshold_bounds (fl : ℚ → ℚ) (hR : RoundsToNearest fl) :
    (1 - unitRoundoff) * (16 / 1000) ≤ fl (16 / 1000) ∧ fl (16 / 1000) ≤ 1 := by
  have hb := hR (16 / 1000) (by norm_num) (by norm_num)
  refine ⟨hb.1, ?_⟩
  have : (1 + unitRoundoff) * (16 / 1000) ≤ 1 := by
    unfold unitRoundoff; norm_num
  linarith [hb.2]

/-- After a publishing quantum of a run that stays on one row at one sample
rate, in rounded arithmetic, the last reported row is that row and the
accumulator exceeds the duration of the quanta since by at most the rounding
errors made. -/
theorem run_rounded_invariant (q : Nat → Quantum) (s0 : State E) (n : Nat) (rate row : Int)
    (hR : RoundsToNearest L.roundDouble) (h31 : rate < 2 ^ 31)
    (hrate : ∀ k, k < n → effectiveRate (q k).out = rate)
    (hrend : ∀ k, k < n →
      RendersRow L (q k).numOutputs (q k).out ((q k).pre (runQuanta L q s0 k)) row)
    (i : Nat) (hi : i < n) (hp : publishesAt L q s0 i) (d : Nat) (hd : i + 1 + d ≤ n) :
    (runQuanta L q s0 (i + 1 + d)).g_lastReportedRow = row
      ∧ 0 ≤ (runQuanta L q s0 (i + 1 + d)).timeSinceLastReport
      ∧ (runQuanta L q s0 (i + 1 + d)).timeSinceLastReport ≤ 1
      ∧ (runQuanta L q s0 (i + 1 + d)).timeSinceLastReport
          ≤ (d : ℚ) * (128 / (rate : ℚ)) * (1 + unitRoundoff) ^ (d + 1) := by
  have h0 : 0 < rate := by rw [← hrate i hi]; exact effectiveRate_pos _
  obtain ⟨he0, hel0, hel1, hel2⟩ := elapsed_bounds L.roundDouble hR rate h0 h31
  have hth := threshold_bounds L.roundDouble hR
  have hu := unitRoundoff_pos
  induction d with
  | zero =>
    have hv := throttle_vars L (q i).numOutputs (q i).out _ row (hrend i hi)
    have hrun : runQuanta L q s0 (i + 1 + 0)
        = (audio_process_cb L (q i).numOutputs (q i).out ((q i).pre (runQuanta L q s0 i))).1 :=
      rfl
    unfold publishesAt at hp
    rw [hrun, hv.1, hv.2, if_pos hp, if_pos hp]
    simp
  | succ d ih =>
    obtain ⟨ih1, ih2, ih3, ih4⟩ := ih (by omega)
    have hk : i + 1 + d < n := by omega
    have hv := throttle_vars L (q (i + 1 + d)).numOutputs (q (i + 1 + d)).out _ row
      (hrend _ hk)
    have hiff := publishCount_pos_iff L (q (i + 1 + d)).numOutputs (q (i + 1 + d)).out _ row
      (hrend _ hk)
    have hpre := quantum_pre_throttle (q (i + 1 + d)) (runQuanta L q s0 (i + 1 + d))
    have hrun : runQuanta L q s0 (i + 1 + (d + 1))
        = (audio_process_cb L (q (i + 1 + d)).numOutputs (q (i + 1 + d)).out
            ((q (i + 1 + d)).pre (runQuanta L q s0 (i + 1 + d)))).1 := rfl
    have hpow1 : (1 : ℚ) ≤ (1 + unitRoundoff) ^ d := one_le_pow₀ (by linarith)
    have hpow2 : (1 + unitRoundoff) ^ (d + 1) = (1 + unitRoundoff) ^ d * (1 + unitRoundoff) :=
      pow_succ _ _
    have hpow3 : (1 + unitRoundoff) ^ (d + 1 + 1)
        = (1 + unitRoundoff) ^ (d + 1) * (1 + unitRoundoff) := pow_succ _ _
    have hP : (1 + unitRoundoff) ≤ (1 + unitRoundoff) ^ (d + 1) := by
      rw [hpow2]; nlinarith
    have hbound0 : (0 : ℚ) ≤ ((d + 1 : Nat) : ℚ) * (128 / (rate : ℚ))
        * (1 + unitRoundoff) ^ (d + 1 + 1) := by positivity
    rw [hrun, hv.1, hv.2]
    by_cases hpub : 0 < publishCount L (q (i + 1 + d)).numOutputs (q (i + 1 + d)).out
        ((q (i + 1 + d)).pre (runQuanta L q s0 (i + 1 + d)))
    · rw [if_pos hpub, if_pos hpub]
      exact ⟨rfl, le_refl _, by norm_num, hbound0⟩
    · rw [if_neg hpub, if_neg hpub]
      have hno := fun hc => hpub (hiff.mpr hc)
      have hlt : accumulatedOf L (q (i + 1 + d)).out
          ((q (i + 1 + d)).pre (runQuanta L q s0 (i + 1 + d))) < thresholdOf L :=
        lt_of_not_ge (fun hge => hno (Or.inr hge))
      have hacc : accumulatedOf L (q (i + 1 + d)).out
          ((q (i + 1 + d)).pre (runQuanta L q s0 (i + 1 + d)))
          = L.roundDouble ((runQuanta L q s0 (i + 1 + d)).timeSinceLastReport
              + L.roundDouble (128 / (rate : ℚ))) := by
        unfold accumulatedOf elapsedOf
        rw [hpre.2, hrate _ hk]
      rw [hacc] at hlt ⊢
      have hx := hR ((runQuanta L q s0 (i + 1 + d)).timeSinceLastReport
          + L.roundDouble (128 / (rate : ℚ))) (by linarith) (by linarith)
      have hum : (0 : ℚ) ≤ 1 - unitRoundoff := by unfold unitRoundoff; norm_num
      refine ⟨by rw [hpre.1]; exact ih1, ?_, ?_, ?_⟩
      · have : (0 : ℚ) ≤ (1 - unitRoundoff)
            * ((runQuanta L q s0 (i + 1 + d)).timeSinceLastReport
              + L.roundDouble (128 / (rate : ℚ))) :=
          mul_nonneg hum (by linarith)
        linarith [hx.1]
      · unfold thresholdOf at hlt
        linarith [hth.2]
      · have hsum : (runQuanta L q s0 (i + 1 + d)).timeSinceLastReport
            + L.roundDouble (128 / (rate : ℚ))
            ≤ (d : ℚ) * (128 / (rate : ℚ)) * (1 + unitRoundoff) ^ (d + 1)
              + (128 / (rate : ℚ)) * (1 + unitRoundoff) ^ (d + 1) := by
          have : (1 + unitRoundoff) * (128 / (rate : ℚ))
              ≤ (128 / (rate : ℚ)) * (1 + unitRoundoff) ^ (d + 1) := by
            rw [mul_comm]
            exact mul_le_mul_of_nonneg_left hP he0
          linarith
        have hmul := mul_le_mul_of_nonneg_left hsum (by linarith : (0 : ℚ) ≤ 1 + unitRoundoff)
        rw [hpow3]
        push_cast
        nlinarith [hx.2]

/-- The arithmetic at the end of the rounded argument: if the rounded
accumulator can have reached the rounded threshold after `n` quanta, the `n`
quanta last at least 16 ms. -/
theorem gap_arith (rate : Int) (n : Nat) (h0 : 0 < rate) (h31 : rate < 2 ^ 31)
    (hpub : (1 - unitRoundoff) * (16 / 1000)
      ≤ (n : ℚ) * (128 / (rate : ℚ)) * (1 + unitRoundoff) ^ (n + 1)) :
    (16 : ℚ) / 1000 ≤ (n : ℚ) * (128 / (rate : ℚ)) := by
  by_contra hlt
  have hlt : (n : ℚ) * (128 / (rate : ℚ)) < 16 / 1000 := lt_of_not_ge hlt
  have hr0 : (0 : ℚ) < (rate : ℚ) := by exact_mod_cast h0
  have hr31 : (rate : ℚ) ≤ 2 ^ 31 - 1 := by
    have : rate ≤ 2 ^ 31 - 1 := by omega
    exact_mod_cast this
  have hq : (n : ℚ) * 8000 < (rate : ℚ) := by
    have h1 : (n : ℚ) * (128 / (rate : ℚ)) = (n : ℚ) * 128 / (rate : ℚ) := by ring
    rw [h1, div_lt_iff₀ hr0] at hlt
    linarith
  have hz : (n : Int) * 8000 < rate := by exact_mod_cast hq
  have hz1 : (n : Int) * 8000 + 1 ≤ rate := by omega
  have hq1 : (n : ℚ) * 8000 + 1 ≤ (rate : ℚ) := by exact_mod_cast hz1
  have hn : n + 1 ≤ 2 ^ 19 := by omega
  have hnq : ((n + 1 : Nat) : ℚ) ≤ 2 ^ 19 := by exact_mod_cast hn
  have hu := unitRoundoff_pos
  have hbern := one_add_pow_le unitRoundoff hu.le (n + 1) (by
    unfold unitRoundoff
    have : 2 * ((n + 1 : Nat) : ℚ) * (1 / 2 ^ 53) ≤ 2 * 2 ^ 19 * (1 / 2 ^ 53) := by
      have := mul_le_mul_of_nonneg_right hnq (by norm_num : (0 : ℚ) ≤ 2 * (1 / 2 ^ 53))
      linarith
    have h2 : (2 : ℚ) * 2 ^ 19 * (1 / 2 ^ 53) ≤ 1 := by norm_num
    linarith)
  have hpowle : (1 + unitRoundoff) ^ (n + 1) ≤ 1 + 1 / 2 ^ 33 := by
    have : 2 * ((n + 1 : Nat) : ℚ) * unitRoundoff ≤ 1 / 2 ^ 33 := by
      unfold unitRoundoff
      have := mul_le_mul_of_nonneg_right hnq (by norm_num : (0 : ℚ) ≤ 2 * (1 / 2 ^ 53))
      have h2 : (2 : ℚ) ^ 19 * (2 * (1 / 2 ^ 53)) = 1 / 2 ^ 33 := by norm_num
      linarith
    linarith
  have hne0 : (0 : ℚ) ≤ (n : ℚ) * (128 / (rate : ℚ)) := by positivity
  have hne : (n : ℚ) * (128 / (rate : ℚ)) ≤ 16 / 1000 * (1 - 1 / 2 ^ 31) := by
    have h1 : (n : ℚ) * (128 / (rate : ℚ)) = (n : ℚ) * 128 / (rate : ℚ) := by ring
    rw [h1, div_le_iff₀ hr0]
    nlinarith
  have hprod : (n : ℚ) * (128 / (rate : ℚ)) * (1 + unitRoundoff) ^ (n + 1)
      ≤ 16 / 1000 * (1 - 1 / 2 ^ 31) * (1 + 1 / 2 ^ 33) :=
    mul_le_mul hne hpowle (by positivity) (by norm_num)
  have hnum : (16 : ℚ) / 1000 * (1 - 1 / 2 ^ 31) * (1 + 1 / 2 ^ 33)
      < (1 - unitRoundoff) * (16 / 1000) := by
    unfold unitRoundoff; norm_num
  linarith

/-- Two publishing quanta of a run that stays on one row at one sample rate, in
rounded arithmetic, are separated by quanta lasting at least 16 ms in total. -/
theorem run_publish_gap_rounded (q : Nat → Quantum) (s0 : State E) (n : Nat) (rate row : Int)
    (hR : RoundsToNearest L.roundDouble) (h31 : rate < 2 ^ 31)
    (hrate : ∀ k, k < n → effectiveRate (q k).out = rate)
    (hrend : ∀ k, k < n →
      RendersRow L (q k).numOutputs (q k).out ((q k).pre (runQuanta L q s0 k)) row)
    (i j : Nat) (hij : i < j) (hj : j < n) (hpi : publishesAt L q s0 i)
    (hpj : publishesAt L q s0 j) :
    (16 : ℚ) / 1000 ≤ ((j - i : Nat) : ℚ) * (128 / (rate : ℚ)) := by
  obtain ⟨d, rfl⟩ : ∃ d, j = i + 1 + d := ⟨j - i - 1, by omega⟩
  have h0 : 0 < rate := by rw [← hrate i (by omega)]; exact effectiveRate_pos _
  obtain ⟨he0, hel0, hel1, hel2⟩ := elapsed_bounds L.roundDouble hR rate h0 h31
  have hth := threshold_bounds L.roundDouble hR
  have hu := unitRoundoff_pos
  obtain ⟨inv1, inv2, inv3, inv4⟩ :=
    run_rounded_invariant L q s0 n rate row hR h31 hrate hrend i (by omega) hpi d (by omega)
  have hc := (publishCount_pos_iff L (q (i + 1 + d)).numOutputs (q (i + 1 + d)).out _ row
    (hrend _ hj)).mp hpj
  have hpre := quantum_pre_throttle (q (i + 1 + d)) (runQuanta L q s0 (i + 1 + d))
  rw [hpre.1, inv1] at hc
  have hge : accumulatedOf L (q (i + 1 + d)).out
      ((q (i + 1 + d)).pre (runQuanta L q s0 (i + 1 + d))) ≥ thresholdOf L := by
    rcases hc with hc | hc
    · exact absurd rfl hc
    · exact hc
  have hacc : accumulatedOf L (q (i + 1 + d)).out
      ((q (i + 1 + d)).pre (runQuanta L q s0 (i + 1 + d)))
      = L.roundDouble ((runQuanta L q s0 (i + 1 + d)).timeSinceLastReport
          + L.roundDouble (128 / (rate : ℚ))) := by
    unfold accumulatedOf elapsedOf
    rw [hpre.2, hrate _ hj]
  rw [hacc] at hge
  unfold thresholdOf at hge
  have hx := hR ((runQuanta L q s0 (i + 1 + d)).timeSinceLastReport
      + L.roundDouble (128 / (rate : ℚ))) (by linarith) (by linarith)
  have hpow1 : (1 : ℚ) ≤ (1 + unitRoundoff) ^ d := one_le_pow₀ (by linarith)
  have hpow2 : (1 + unitRoundoff) ^ (d + 1) = (1 + unitRoundoff) ^ d * (1 + unitRoundoff) :=
    pow_succ _ _
  have hpow3 : (1 + unitRoundoff) ^ (d + 1 + 1)
      = (1 + unitRoundoff) ^ (d + 1) * (1 + unitRoundoff) := pow_succ _ _
  have hP : (1 + unitRoundoff) ≤ (1 + unitRoundoff) ^ (d + 1) := by
    rw [hpow2]; nlinarith
  have hsum : (runQuanta L q s0 (i + 1 + d)).timeSinceLastReport
      + L.roundDouble (128 / (rate : ℚ))
      ≤ (d : ℚ) * (128 / (rate : ℚ)) * (1 + unitRoundoff) ^ (d + 1)
        + (128 / (rate : ℚ)) * (1 + unitRoundoff) ^ (d + 1) := by
    have : (1 + unitRoundoff) * (128 / (rate : ℚ))
        ≤ (128 / (rate : ℚ)) * (1 + unitRoundoff) ^ (d + 1) := by
      rw [mul_comm]
      exact mul_le_mul_of_nonneg_left hP he0
    linarith
  have hmul := mul_le_mul_of_nonneg_left hsum (by linarith : (0 : ℚ) ≤ 1 + unitRoundoff)
  have hfinal : (1 - unitRoundoff) * (16 / 1000)
      ≤ ((d + 1 : Nat) : ℚ) * (128 / (rate : ℚ)) * (1 + unitRoundoff) ^ (d + 1 + 1) := by
    rw [hpow3]
    push_cast
    nlinarith [hx.2, hth.1]
  have hsub : i + 1 + d - i = d + 1 := by omega
  rw [hsub]
  exact gap_arith rate (d + 1) h0 h31 hfinal

/-- Two publishing quanta of a run that stays on one row at one sample rate are
separated by quanta lasting at least 16 ms in total. -/
theorem run_publish_gap (q : Nat → Quantum) (s0 : State E) (n : Nat) (rate row : Int)
    (harith : ThrottleArithmetic L rate)
    (hrate : ∀ k, k < n → effectiveRate (q k).out = rate)
    (hrend : ∀ k, k < n →
      RendersRow L (q k).numOutputs (q k).out ((q k).pre (runQuanta L q s0 k)) row)
    (i j : Nat) (hij : i < j) (hj : j < n) (hpi : publishesAt L q s0 i)
    (hpj : publishesAt L q s0 j) :
    (16 : ℚ) / 1000 ≤ ((j - i : Nat) : ℚ) * (128 / (rate : ℚ)) := by
  rcases harith with hexact | ⟨hR, h31⟩
  · exact run_publish_gap_exact L q s0 n rate row hexact hrate hrend i j hij hj hpi hpj
  · exact run_publish_gap_rounded L q s0 n rate row hR h31 hrate hrend i j hij hj hpi hpj

/-- The module after the render phase when a module is loaded. -/
theorem renderQuantum_g_module (numOutputs : Int) (out : AudioSampleFrame) (s : State E)
    (hn : 1 ≤ numOutputs) (hc : 2 ≤ out.numberOfChannels) (hl : s.g_module.isLoaded = true) :
    (renderQuantum L numOutputs out s).1.g_module
      = (s.g_module.readInterleavedStereo L (effectiveRate out) 128 (fun _ => 0)).1 := by
  unfold renderQuantum
  rw [if_neg (by omega)]
  simp only [hl, not_true_eq_false, if_false]
  repeat' split
  all_goals rfl

theorem renderQuantum_ready (numOutputs : Int) (out : AudioSampleFrame) (s : State E) :
    (renderQuantum L numOutputs out s).1.g_positionReady = s.g_positionReady
      ∨ (renderQuantum L numOutputs out s).1.g_positionReady = 1 := by
  unfold renderQuantum; dsimp only; repeat' split
  all_goals simp

theorem controlOp_ready (op : ControlOp) (s : State E) :
    (op.apply s).g_positionReady = s.g_positionReady ∨ (op.apply s).g_positionReady = 0 := by
  cases op <;>
    simp only [ControlOp.apply, ModPlayer.load_module, ModPlayer.seek_order_row,
      ModPlayer.set_loop, ModPlayer.set_volume, ModPlayer.poll_position,
      ModPlayer.cleanup_audio] <;> repeat' split
  all_goals simp

/-- The ready flag is 0 or 1 in every reachable state. -/
theorem reachable_ready_flag (s : State E) (h : Reachable L s) :
    s.g_positionReady = 0 ∨ s.g_positionReady = 1 := by
  induction h with
  | init => exact Or.inl rfl
  | control op s _ ih =>
    rcases controlOp_ready op s with h1 | h1
    · rw [h1]; exact ih
    · exact Or.inl h1
  | quantum numOutputs out s _ ih =>
    rcases renderQuantum_ready L numOutputs out (drainCommands L s) with h1 | h1
    · rw [audio_process_cb, h1]
      simpa [drainCommands] using ih
    · exact Or.inr h1

theorem poll_position_state (s : State E) :
    (poll_position s).1 = { s with g_positionReady := 0 } := by
  unfold poll_position; dsimp only; split <;> rfl

theorem poll_position_result (s : State E) :
    (poll_position s).2 = if s.g_positionReady ≠ 0 then some s.g_positionInfo else none := by
  unfold poll_position; dsimp only; split <;> rfl

/-- The `setRepeatCount` calls of one callback are those of its loop command. -/
theorem cb_filter_isSetRepeatCount (numOutputs : Int) (out : AudioSampleFrame) (s : State E) :
    (newEvents s (audio_process_cb L numOutputs out s).1).filter Event.isSetRepeatCount
      = loopEvents s := by
  have h1 : (loadEvents s).filter Event.isSetRepeatCount = [] := by
    unfold loadEvents; repeat' split
    all_goals simp [Event.isSetRepeatCount]
  have h2 : (seekEvents s).filter Event.isSetRepeatCount = [] := by
    unfold seekEvents; split <;> simp [Event.isSetRepeatCount]
  have h3 : (loopEvents s).filter Event.isSetRepeatCount = loopEvents s := by
    unfold loopEvents; split <;> simp [Event.isSetRepeatCount]
  have h4 : (volumeEvents s).filter Event.isSetRepeatCount = [] := by
    unfold volumeEvents; split <;> simp [Event.isSetRepeatCount]
  have h5 : (renderEvents L numOutputs out (drainCommands L s)).filter Event.isSetRepeatCount
      = [] := by
    unfold renderEvents newEvents renderQuantum; dsimp only; repeat' split
    all_goals simp [Event.isSetRepeatCount]
  rw [audio_process_cb_newEvents]
  simp only [List.filter_append, h1, h2, h3, h4, h5, List.nil_append, List.append_nil]

/-- The `seekOrderRow` calls of one callback are those of its seek command. -/
theorem cb_filter_isSeek (numOutputs : Int) (out : AudioSampleFrame) (s : State E) :
    (newEvents s (audio_process_cb L numOutputs out s).1).filter Event.isSeek
      = seekEvents s := by
  have h1 : (loadEvents s).filter Event.isSeek = [] := by
    unfold loadEvents; repeat' split
    all_goals simp [Event.isSeek]
  have h2 : (seekEvents s).filter Event.isSeek = seekEvents s := by
    unfold seekEvents; split <;> simp [Event.isSeek]
  have h3 : (loopEvents s).filter Event.isSeek = [] := by
    unfold loopEvents; split <;> simp [Event.isSeek]
  have h4 : (volumeEvents s).filter Event.isSeek = [] := by
    unfold volumeEvents; split <;> simp [Event.isSeek]
  have h5 : (renderEvents L numOutputs out (drainCommands L s)).filter Event.isSeek = [] := by
    unfold renderEvents newEvents renderQuantum; dsimp only; repeat' split
    all_goals simp [Event.isSeek]
  rw [audio_process_cb_newEvents]
  simp only [List.filter_append, h1, h2, h3, h4, h5, List.nil_append, List.append_nil]

/-- The `load` calls of one callback are those of its load command. -/
theorem cb_filter_isLoad (numOutputs : Int) (out : AudioSampleFrame) (s : State E) :
    (newEvents s (audio_process_cb L numOutputs out s).1).filter Event.isLoad
      = loadEvents s := by
  have h1 : (loadEvents s).filter Event.isLoad = loadEvents s := by
    unfold loadEvents; repeat' split
    all_goals simp [Event.isLoad]
  have h2 : (seekEvents s).filter Event.isLoad = [] := by
    unfold seekEvents; split <;> simp [Event.isLoad]
  have h3 : (loopEvents s).filter Event.isLoad = [] := by
    unfold loopEvents; split <;> simp [Event.isLoad]
  have h4 : (volumeEvents s).filter Event.isLoad = [] := by
    unfold volumeEvents; split <;> simp [Event.isLoad]
  have h5 : (renderEvents L numOutputs out (drainCommands L s)).filter Event.isLoad = [] := by
    unfold renderEvents newEvents renderQuantum; dsimp only; repeat' split
    all_goals simp [Event.isLoad]
  rw [audio_process_cb_newEvents]
  simp only [List.filter_append, h1, h2, h3, h4, h5, List.nil_append, List.append_nil]

/-- Every callback leaves the command mailboxes at their idle values. -/
theorem cb_mailboxes (numOutputs : Int) (out : AudioSampleFrame) (s : State E) :
    (audio_process_cb L numOutputs out s).1.g_cmdSeekOrder = -1
      ∧ (audio_process_cb L numOutputs out s).1.g_cmdSeekRow = -1
      ∧ (audio_process_cb L numOutputs out s).1.g_cmdSetLoop = -1
      ∧ (audio_process_cb L numOutputs out s).1.g_cmdVolume = -1 := by
  refine ⟨?_, ?_, ?_, ?_⟩
  · simp only [audio_process_cb, drainCommands, renderQuantum_g_cmdSeekOrder,
      drainVolume_g_cmdSeekOrder, drainLoop_g_cmdSeekOrder]
    unfold drainSeek; dsimp only; split <;> rfl
  · simp only [audio_process_cb, drainCommands, renderQuantum_g_cmdSeekRow,
      drainVolume_g_cmdSeekRow, drainLoop_g_cmdSeekRow]
    unfold drainSeek; dsimp only; split <;> rfl
  · simp only [audio_process_cb, drainCommands, renderQuantum_g_cmdSetLoop,
      drainVolume_g_cmdSetLoop]
    unfold drainLoop; dsimp only; split <;> rfl
  · simp only [audio_process_cb, drainCommands, renderQuantum_g_cmdVolume]
    unfold drainVolume; dsimp only; split <;> rfl

/-- A non-empty sequence of `set_loop` calls leaves what its last call leaves. -/
theorem foldl_set_loop (vs : List Int) (hne : vs ≠ []) (s : State E) :
    vs.foldl (fun t v => set_loop v t) s = set_loop (vs.getLast hne) s := by
  induction vs generalizing s with
  | nil => exact absurd rfl hne
  | cons v rest ih =>
    cases rest with
    | nil => rfl
    | cons w rest2 =>
      rw [List.foldl_cons, ih (List.cons_ne_nil _ _), List.getLast_cons (List.cons_ne_nil _ _)]
      rfl

/-- An accepted `load_module`: non-null data of positive length, allocation succeeding. -/
theorem load_module_accepted (bytes : List Nat) (hne : bytes ≠ []) (s : State E) :
    load_module (some bytes) (bytes.length : Int) true s =
      ({ s with
          g_moduleData := some bytes
          g_moduleDataSize := bytes.length
          g_cmdLoad := 1 }, 1) := by
  have hlen : 0 < bytes.length := List.length_pos.mpr hne
  unfold load_module
  have h1 : ¬ ((bytes.length : Int) ≤ 0) := by omega
  simp [h1]

/-- Every callback leaves the load flag at 0 when it was 0 or 1. -/
theorem cb_g_cmdLoad (numOutputs : Int) (out : AudioSampleFrame) (s : State E)
    (h : s.g_cmdLoad = 1) : (audio_process_cb L numOutputs out s).1.g_cmdLoad = 0 := by
  simp only [audio_process_cb, drainCommands, renderQuantum_g_cmdLoad, drainVolume_g_cmdLoad,
    drainLoop_g_cmdLoad, drainSeek_g_cmdLoad]
  unfold drainLoad; dsimp only; rw [if_pos h]; repeat' split
  all_goals rfl

/-- A `load_module` call rejected at its first check leaves the state as it was. -/
theorem load_module_invalid (data : Option (List Nat)) (length : Int) (mallocOk : Bool)
    (s : State E) (h : data = none ∨ length ≤ 0) :
    load_module data length mallocOk s = (s, 0) := by
  unfold load_module
  cases data with
  | none => rfl
  | some bytes =>
    rcases h with h | h
    · exact absurd h (by simp)
    · simp [h]

/-- A `load_module` call whose allocation fails returns 0 with the transfer
pointer null. -/
theorem load_module_alloc_failed (bytes : List Nat) (length : Int) (s : State E)
    (h : 0 < length) :
    load_module (some bytes) length false s = ({ s with g_moduleData := none }, 0) := by
  unfold load_module
  have h1 : ¬ length ≤ 0 := by omega
  simp [h1]

/-- The load command when the flag is set but the transfer pointer is null. -/
theorem drainLoad_no_buffer (s : State E) (h1 : s.g_cmdLoad = 1) (h2 : s.g_moduleData = none) :
    drainLoad L s = { s with g_cmdLoad := 0 } := by
  unfold drainLoad
  simp [h1, h2]

/-- The state after `cleanup_audio`, field by field. -/
theorem cleanup_audio_eq (s : State E) :
    cleanup_audio s =
      { s with
        g_module := s.g_module.unload
        g_moduleData := none
        g_audioCtx := 0
        g_workletNode := 0
        events := s.events ++ [Event.unload] } := by
  unfold cleanup_audio
  cases h : s.g_moduleData with
  | none => simp [h]
  | some d => simp [h]

theorem unload_unload (m : OpenMPTModule E) : m.unload.unload = m.unload := by
  unfold OpenMPTModule.unload
  cases h : m.mod_ with
  | none => simp [h]
  | some e => simp

/-- The render phase records nothing when no module is loaded. -/
theorem renderEvents_not_loaded (numOutputs : Int) (out : AudioSampleFrame) (s : State E)
    (h : s.g_module.isLoaded = false) : renderEvents L numOutputs out s = [] := by
  unfold renderEvents newEvents renderQuantum
  dsimp only
  split
  · simp
  · simp [h]

/-- The state after a callback on the end-of-stream path. -/
theorem ended_step (numOutputs : Int) (out : AudioSampleFrame) (s : State E)
    (h : EndsStream L numOutputs out s) :
    (audio_process_cb L numOutputs out s).1 =
      { drainCommands L s with
        g_module := ((drainCommands L s).g_module.readInterleavedStereo L (effectiveRate out)
          128 (fun _ => 0)).1
        g_positionInfo := { s.g_positionInfo with currentRow := -1 }
        g_positionReady := 1
        events := (drainCommands L s).events
          ++ [Event.readInterleavedStereo (effectiveRate out) 128, Event.publish (-1)] } := by
  obtain ⟨hn, hc, hl, hr⟩ := h
  have f1 : (drainCommands L s).g_positionInfo = s.g_positionInfo := by
    simp [drainCommands]
  rw [audio_process_cb, renderQuantum_ended L numOutputs out _ hn hc hl hr, f1]

/-- A callback on the end-of-stream path publishes once. -/
theorem ended_publishCount (numOutputs : Int) (out : AudioSampleFrame) (s : State E)
    (h : EndsStream L numOutputs out s) : publishCount L numOutputs out s = 1 := by
  unfold publishCount newEvents
  rw [ended_step L numOutputs out s h]
  simp [drainCommands_events, Event.isPublish, filter_isPublish_loadEvents,
    filter_isPublish_seekEvents, filter_isPublish_loopEvents, filter_isPublish_volumeEvents]

/-- A callback that returns before it calls the engine only drains the commands. -/
theorem nothing_step (numOutputs : Int) (out : AudioSampleFrame) (s : State E)
    (h : RendersNothing L numOutputs out s) :
    (audio_process_cb L numOutputs out s).1 = drainCommands L s := by
  unfold audio_process_cb renderQuantum
  dsimp only
  by_cases h1 : numOutputs < 1 ∨ out.numberOfChannels < 2
  · rw [if_pos h1]
  · rw [if_neg h1]
    have hl : (drainCommands L s).g_module.isLoaded = false := by
      rcases h with h | h | h
      · exact absurd (Or.inl h) h1
      · exact absurd (Or.inr h) h1
      · exact h
    simp [hl]

/-- A callback that returns before it calls the engine does not publish. -/
theorem nothing_publishCount (numOutputs : Int) (out : AudioSampleFrame) (s : State E)
    (h : RendersNothing L numOutputs out s) : publishCount L numOutputs out s = 0 := by
  unfold publishCount newEvents
  rw [nothing_step L numOutputs out s h]
  simp [drainCommands_events, filter_isPublish_loadEvents,
    filter_isPublish_seekEvents, filter_isPublish_loopEvents, filter_isPublish_volumeEvents]

end Frame

/-- The volume held by the module after `set_volume(v)` and one callback. -/
theorem volume_after_set_volume (L : Lib E) (numOutputs : Int) (out : AudioSampleFrame)
    (s : State E) (v : ℚ) :
    (audio_process_cb L numOutputs out (set_volume v s)).1.g_module.volume_
      = if 0 ≤ v then max 0 (min 1 v) else s.g_module.volume_ := by
  rw [audio_process_cb, renderQuantum_volume, drainCommands]
  unfold drainVolume
  simp only [drainLoop_g_cmdVolume, drainSeek_g_cmdVolume, drainLoad_g_cmdVolume, set_volume]
  split
  · simp [OpenMPTModule.setVolume]
  · simp

/-! ## C1: volume clamp -/

/-- C1 (counterexample): `set_volume(-1/2)` on the initial state followed by one
`audio_process_cb` leaves the volume at its previous value 1, whereas
`max(0, min(1, -1/2))` is 0. -/
theorem C1_negative_volume_not_clamped :
    (audio_process_cb toyLib 1 toyOut
        (set_volume (-1 / 2) (State.init : State ToyEngine))).1.g_module.volume_ = 1
      ∧ max (0 : ℚ) (min 1 (-1 / 2)) = 0 := by
  constructor
  · rw [volume_after_set_volume]
    norm_num [State.init, OpenMPTModule.init]
  · norm_num

/-- C1 (amended): after `set_volume(v)` and the next `audio_process_cb`, the
module's volume is `max(0, min(1, v))` when `v ≥ 0` (in particular it is 1 for
`v > 1`), and it is the volume held before the call when `v < 0`. -/
theorem C1_volume_after_drain (L : Lib E) (numOutputs : Int) (out : AudioSampleFrame)
    (s : State E) (v : ℚ) :
    (audio_process_cb L numOutputs out (set_volume v s)).1.g_module.volume_
        = (if 0 ≤ v then max 0 (min 1 v) else s.g_module.volume_)
      ∧ (1 < v → (audio_process_cb L numOutputs out (set_volume v s)).1.g_module.volume_ = 1) := by
  refine ⟨volume_after_set_volume L numOutputs out s v, fun hv => ?_⟩
  rw [volume_after_set_volume, if_pos (by linarith)]
  rw [min_eq_left hv.le]
  norm_num

/-- C1 (witness): the volume 3/2 is clamped to 1. -/
theorem C1_volume_after_drain_witness :
    (audio_process_cb toyLib 1 toyOut
        (set_volume (3 / 2) (State.init : State ToyEngine))).1.g_module.volume_ = 1 :=
  (C1_volume_after_drain toyLib 1 toyOut State.init (3 / 2)).2 (by norm_num)

/-! ## C2: a failed load -/

/-- C2 (counterexample): with a module loaded, a pending load of the one-byte
buffer `[0]`, which the engine rejects, leaves no module loaded after the
callback. -/
theorem C2_failed_load_unloads :
    (load_module (some [0]) 1 true toyLoaded).1.g_module.isLoaded = true
      ∧ toyLib.create_from_memory2 [0] 1 = none
      ∧ (audio_process_cb toyLib 1 toyOut
          (load_module (some [0]) 1 true toyLoaded).1).1.g_module.isLoaded = false := by
  refine ⟨rfl, rfl, ?_⟩
  rw [audio_process_cb_isLoaded, drainLoad_pending toyLib _ [0] rfl rfl (by decide)]
  rfl

/-- C2 (amended): when the pending load buffer is rejected by the engine, no
module is loaded after the callback, whether or not one was loaded before; the
load flag is 0 and the transfer buffer is released. -/
theorem C2_failed_load_leaves_empty (L : Lib E) (numOutputs : Int) (out : AudioSampleFrame)
    (s : State E) (data : List Nat) (h1 : s.g_cmdLoad = 1) (h2 : s.g_moduleData = some data)
    (h3 : 0 < s.g_moduleDataSize)
    (hfail : L.create_from_memory2 data s.g_moduleDataSize = none) :
    (audio_process_cb L numOutputs out s).1.g_module.isLoaded = false
      ∧ (audio_process_cb L numOutputs out s).1.g_cmdLoad = 0
      ∧ (audio_process_cb L numOutputs out s).1.g_moduleData = none
      ∧ (audio_process_cb L numOutputs out s).1.g_moduleDataSize = 0 := by
  refine ⟨?_, ?_, ?_, ?_⟩
  · rw [audio_process_cb_isLoaded, drainLoad_pending L s data h1 h2 h3]
    simp [OpenMPTModule.isLoaded, load_failed L _ _ _ hfail]
  all_goals simp [audio_process_cb, drainCommands, drainLoad_pending L s data h1 h2 h3]

/-- C2 (witness): the rejected buffer `[0]` pending over a loaded module. -/
theorem C2_failed_load_leaves_empty_witness :
    (audio_process_cb toyLib 1 toyOut
        (load_module (some [0]) 1 true toyLoaded).1).1.g_module.isLoaded = false :=
  (C2_failed_load_leaves_empty toyLib 1 toyOut (load_module (some [0]) 1 true toyLoaded).1 [0]
    rfl rfl (by decide) rfl).1

/-! ## C3: end of stream -/

/-- C3: when a module is loaded as rendering starts, the output has at least two
channels and the engine renders 0 frames, the callback zeroes all
`128 * numberOfChannels` output samples, sets the snapshot's `currentRow` to -1
and the ready flag to 1, whatever the throttle accumulator and the last
reported row are; the next `poll_position` returns a snapshot with row -1. -/
theorem C3_end_of_stream (L : Lib E) (numOutputs : Int) (out : AudioSampleFrame) (s : State E)
    (hn : 1 ≤ numOutputs) (hc : 2 ≤ out.numberOfChannels)
    (hl : (drainCommands L s).g_module.isLoaded = true)
    (hr : ((drainCommands L s).g_module.readInterleavedStereo L (effectiveRate out) 128
      (fun _ => 0)).2.1 = 0) :
    (∀ i, i < (128 * out.numberOfChannels).toNat →
        (audio_process_cb L numOutputs out s).2.data i = 0)
      ∧ (audio_process_cb L numOutputs out s).1.g_positionInfo.currentRow = -1
      ∧ (audio_process_cb L numOutputs out s).1.g_positionReady = 1
      ∧ (∃ pi, (poll_position (audio_process_cb L numOutputs out s).1).2 = some pi
          ∧ pi.currentRow = -1) := by
  rw [audio_process_cb, renderQuantum_ended L numOutputs out _ hn hc hl hr]
  refine ⟨?_, rfl, rfl, ?_⟩
  · intro i hi
    simp [memsetZero, hi]
  · simp [poll_position]

/-- C3 (witness): a loaded test module whose next read renders no frame. -/
theorem C3_end_of_stream_witness :
    (audio_process_cb toyLib 1 toyOut toyEnding).2.data 0 = 0
      ∧ (audio_process_cb toyLib 1 toyOut toyEnding).2.data 255 = 0
      ∧ (audio_process_cb toyLib 1 toyOut toyEnding).1.g_positionInfo.currentRow = -1
      ∧ (audio_process_cb toyLib 1 toyOut toyEnding).1.g_positionReady = 1 := by
  have hd : drainCommands toyLib toyEnding = toyEnding :=
    drainCommands_idle toyLib toyEnding (by decide) rfl rfl rfl rfl
  have h := C3_end_of_stream toyLib 1 toyOut toyEnding (by decide) (by decide)
    (by rw [hd]; rfl)
    (by rw [hd, readInterleavedStereo_count toyLib _ _ _ _ _ rfl]; rfl)
  exact ⟨h.1 0 (by decide), h.1 255 (by decide), h.2.1, h.2.2.1⟩

/-! ## C4: layout conversion -/

/-- C4: when a module is loaded as rendering starts and the engine renders `r`
frames with `1 ≤ r ≤ 128` into the interleaved buffer `b`, the planar output
after the callback has `out[i] = b[2i]` and `out[128+i] = b[2i+1]` for `i < r`,
and `out[i] = 0` and `out[128+i] = 0` for `r ≤ i < 128`. -/
theorem C4_layout_conversion (L : Lib E) (numOutputs : Int) (out : AudioSampleFrame)
    (s : State E) (r : Nat) (b : Buf)
    (hn : 1 ≤ numOutputs) (hc : 2 ≤ out.numberOfChannels)
    (hl : (drainCommands L s).g_module.isLoaded = true)
    (hr : ((drainCommands L s).g_module.readInterleavedStereo L (effectiveRate out) 128
      (fun _ => 0)).2.1 = (r : Int))
    (hb : ((drainCommands L s).g_module.readInterleavedStereo L (effectiveRate out) 128
      (fun _ => 0)).2.2 = b)
    (h1 : 1 ≤ r) (h2 : r ≤ 128) :
    (∀ i, i < r →
        (audio_process_cb L numOutputs out s).2.data i = b (2 * i)
          ∧ (audio_process_cb L numOutputs out s).2.data (128 + i) = b (2 * i + 1))
      ∧ (∀ i, r ≤ i → i < 128 →
        (audio_process_cb L numOutputs out s).2.data i = 0
          ∧ (audio_process_cb L numOutputs out s).2.data (128 + i) = 0) := by
  have hne : ((drainCommands L s).g_module.readInterleavedStereo L (effectiveRate out) 128
      (fun _ => 0)).2.1 ≠ 0 := by rw [hr]; omega
  rw [audio_process_cb, renderQuantum_data L numOutputs out _ hn hc hl hne, hr, hb]
  have ht : ((r : Int)).toNat = r := by omega
  have hs : (128 - (r : Int)).toNat = 128 - r := by omega
  rw [ht, hs]
  constructor
  · intro i hi
    have e1 : i * 2 = 2 * i := by omega
    have e2 : (128 + i - 128) * 2 + 1 = 2 * i + 1 := by omega
    split
    · have a1 : ¬ (r ≤ i ∧ i < r + (128 - r)) := by omega
      have a2 : ¬ (128 + r ≤ i ∧ i < 128 + r + (128 - r)) := by omega
      have a3 : ¬ (r ≤ 128 + i ∧ 128 + i < r + (128 - r)) := by omega
      have a4 : ¬ (128 + r ≤ 128 + i ∧ 128 + i < 128 + r + (128 - r)) := by omega
      have a5 : ¬ (128 + i < r) := by omega
      have a6 : 128 ≤ 128 + i ∧ 128 + i < 128 + r := by omega
      simp only [memsetZero, a1, a2, a3, a4, if_false]
      rw [deinterleaveLoop_apply b 128 out.data r h2, deinterleaveLoop_apply b 128 out.data r h2]
      rw [if_pos hi, if_neg a5, if_pos a6, e1, e2]
      exact ⟨rfl, rfl⟩
    · have a5 : ¬ (128 + i < r) := by omega
      have a6 : 128 ≤ 128 + i ∧ 128 + i < 128 + r := by omega
      rw [deinterleaveLoop_apply b 128 out.data r h2, deinterleaveLoop_apply b 128 out.data r h2]
      rw [if_pos hi, if_neg a5, if_pos a6, e1, e2]
      exact ⟨rfl, rfl⟩
  · intro i hi hi2
    have hlt : (r : Int) < 128 := by omega
    rw [if_pos hlt]
    have a1 : r ≤ i ∧ i < r + (128 - r) := by omega
    have a2 : ¬ (128 + r ≤ i ∧ i < 128 + r + (128 - r)) := by omega
    have a4 : 128 + r ≤ 128 + i ∧ 128 + i < 128 + r + (128 - r) := by omega
    simp only [memsetZero, a1, a2, a4, if_true, if_false, and_self]

/-- C4 (witness): a read of 3 frames whose sample `i` is `i + 1`. -/
theorem C4_layout_conversion_witness :
    (audio_process_cb toyLib 1 toyOut toyShort).2.data 0 = 1
      ∧ (audio_process_cb toyLib 1 toyOut toyShort).2.data 128 = 2
      ∧ (audio_process_cb toyLib 1 toyOut toyShort).2.data 2 = 5
      ∧ (audio_process_cb toyLib 1 toyOut toyShort).2.data 130 = 6
      ∧ (audio_process_cb toyLib 1 toyOut toyShort).2.data 3 = 0
      ∧ (audio_process_cb toyLib 1 toyOut toyShort).2.data 131 = 0 := by
  have hd : drainCommands toyLib toyShort = toyShort :=
    drainCommands_idle toyLib toyShort (by decide) rfl rfl rfl rfl
  have h := C4_layout_conversion toyLib 1 toyOut toyShort 3 (fun i => (i : ℚ) + 1)
    (by decide) (by decide) (by rw [hd]; rfl)
    (by rw [hd, readInterleavedStereo_count toyLib _ _ _ _ _ rfl]; rfl)
    (by
      rw [hd]
      simp [toyShort, OpenMPTModule.readInterleavedStereo, toyLib, rat_one_not_lt])
    (by decide) (by decide)
  have h0 := h.1 0 (by decide)
  have h2 := h.1 2 (by decide)
  have h3 := h.2 3 (by decide) (by decide)
  norm_num at h0 h2 h3
  exact ⟨h0.1, h0.2, h2.1, h2.2, h3.1, h3.2⟩

/-! ## C5: the throttle decision -/

theorem c5s1_eq :
    c5s1 = { (State.init : State ToyEngine) with
      g_module :=
        { mod_ := some { script := [(0, 5)], row := 5, repeatCount := -1 }, volume_ := 1 }
      g_lastReportedRow := 5
      g_lastReportTimeS := 1 / 375
      g_positionReady := 1
      g_positionInfo := OpenMPTModule.fillPositionInfo toyLib
        { mod_ := some { script := [(0, 5)], row := 5, repeatCount := -1 }, volume_ := 1 }
      events := [Event.load [77, 128, 5, 0, 5] 5, Event.readInterleavedStereo 48000 128,
        Event.publish 5] } := by
  simp [c5s1, c5s0, audio_process_cb, drainCommands, drainLoad, drainSeek, drainLoop, drainVolume,
    renderQuantum, load_module, State.init, OpenMPTModule.init, OpenMPTModule.isLoaded, toyOut,
    OpenMPTModule.load, OpenMPTModule.unload, OpenMPTModule.readInterleavedStereo, toyLib,
    effectiveRate, wrapInt32, OpenMPTModule.getCurrentRow, decodeScript,
    rat_one_not_le_zero, rat_one_not_lt]
  norm_num [OpenMPTModule.fillPositionInfo]

theorem c5s2_eq :
    c5s2 = { (State.init : State ToyEngine) with
      g_module :=
        { mod_ := some { script := [], row := 5, repeatCount := -1 }, volume_ := 1 }
      g_lastReportedRow := 5
      g_lastReportTimeS := 1 / 375
      g_positionReady := 1
      g_positionInfo :=
        { OpenMPTModule.fillPositionInfo toyLib
            { mod_ := some { script := [(0, 5)], row := 5, repeatCount := -1 }, volume_ := 1 } with
          currentRow := -1 }
      events := [Event.load [77, 128, 5, 0, 5] 5, Event.readInterleavedStereo 48000 128,
        Event.publish 5, Event.readInterleavedStereo 48000 128, Event.publish (-1)] } := by
  rw [c5s2, c5s1_eq]
  simp [audio_process_cb, drainCommands, drainLoad, drainSeek, drainLoop, drainVolume,
    renderQuantum, State.init, OpenMPTModule.isLoaded, toyOut,
    OpenMPTModule.readInterleavedStereo, toyLib,
    effectiveRate, wrapInt32, rat_one_not_le_zero, rat_one_not_lt]

theorem c5s2_rendersRow : RendersRow toyLib 1 toyOut c5s2 5 := by
  have hd : drainCommands toyLib c5s2 = c5s2 := by
    apply drainCommands_idle <;> simp [c5s2_eq, State.init]
  unfold RendersRow
  rw [hd, c5s2_eq]
  simp [toyOut, OpenMPTModule.isLoaded, OpenMPTModule.readInterleavedStereo, toyLib,
    effectiveRate, wrapInt32, rat_one_not_lt, OpenMPTModule.getCurrentRow]

theorem toyLib_exact : ∀ x : ℚ, toyLib.roundDouble x = x := fun _ => rfl

/-- Exact arithmetic is one of the roundings with relative error at most `2^-53`. -/
theorem toyLib_roundsToNearest : RoundsToNearest toyLib.roundDouble := by
  intro x hlo _
  have hx : (0 : ℚ) ≤ x := le_trans (by norm_num) hlo
  have hu := unitRoundoff_pos
  show (1 - unitRoundoff) * x ≤ x ∧ x ≤ (1 + unitRoundoff) * x
  constructor <;> nlinarith

theorem c5s2_publishCount : publishCount toyLib 1 toyOut c5s2 = 0 := by
  have h := publishCount_pos_iff toyLib 1 toyOut c5s2 5 c5s2_rendersRow
  have hno : ¬ ((5 : Int) ≠ c5s2.g_lastReportedRow
      ∨ accumulatedOf toyLib toyOut c5s2 ≥ thresholdOf toyLib) := by
    rw [accumulatedOf_exact toyLib _ _ toyLib_exact, thresholdOf_exact toyLib toyLib_exact,
      c5s2_eq]
    norm_num [State.init, effectiveRate, toyOut]
  have h2 : ¬ 0 < publishCount toyLib 1 toyOut c5s2 := fun hp => hno (h.mp hp)
  omega

theorem c5s1_endsStream : EndsStream toyLib 1 toyOut c5s1 := by
  have hd : drainCommands toyLib c5s1 = c5s1 := by
    apply drainCommands_idle <;> simp [c5s1_eq, State.init]
  unfold EndsStream
  rw [hd, c5s1_eq]
  simp [toyOut, OpenMPTModule.isLoaded, OpenMPTModule.readInterleavedStereo, toyLib,
    effectiveRate, wrapInt32, rat_one_not_lt]

theorem init_rendersNothing :
    RendersNothing toyLib 1 toyOut (State.init : State ToyEngine) := by
  have hd : drainCommands toyLib (State.init : State ToyEngine) = State.init :=
    drainCommands_idle toyLib _ (by decide) rfl rfl rfl rfl
  unfold RendersNothing
  rw [hd]
  exact Or.inr (Or.inr rfl)

/-- C5 (counterexample): after a module is loaded, one full quantum on row 5 and
one end-of-stream quantum, the last published snapshot has row -1.  In the next
quantum a module is loaded, 128 frames are rendered and the engine's current row
is 5, which differs from -1, yet the callback does not publish. -/
theorem C5_no_publish_after_end_of_stream :
    RendersRow toyLib 1 toyOut c5s2 5
      ∧ lastPublishedRow c5s2.events = some (-1)
      ∧ c5s2.g_positionInfo.currentRow = -1
      ∧ (5 : Int) ≠ -1
      ∧ publishCount toyLib 1 toyOut c5s2 = 0 := by
  refine ⟨c5s2_rendersRow, ?_, ?_, by decide, c5s2_publishCount⟩
  · rw [c5s2_eq]; rfl
  · rw [c5s2_eq]

/-- C5 (amended): on a quantum in which a module is loaded and at least one
frame is rendered, `audio_process_cb` publishes a snapshot if and only if the
engine's current row differs from `g_lastReportedRow` or the `double`
accumulator `timeSinceLastReport`, after this quantum's `+= elapsed`, is at
least the `double` 0.016.  When it publishes, the snapshot buffer is filled from
the engine, the ready flag is 1, `g_lastReportedRow` becomes the engine's row
and the accumulator becomes 0; otherwise the snapshot buffer, the ready flag and
`g_lastReportedRow` are unchanged and the accumulator keeps the increased value.
An end-of-stream quantum publishes once, with row -1, and changes neither
`g_lastReportedRow` nor the accumulator; a quantum that returns before it calls
the engine and a control call change neither of them either; initially they are
-1 and 0. -/
theorem C5_throttle_decision (L : Lib E) (numOutputs : Int) (out : AudioSampleFrame)
    (s : State E) (row : Int) :
    (RendersRow L numOutputs out s row →
        (0 < publishCount L numOutputs out s
          ↔ (row ≠ s.g_lastReportedRow ∨ accumulatedOf L out s ≥ thresholdOf L))
        ∧ (0 < publishCount L numOutputs out s →
            (audio_process_cb L numOutputs out s).1.g_positionInfo
                = ((drainCommands L s).g_module.readInterleavedStereo L (effectiveRate out) 128
                    (fun _ => 0)).1.fillPositionInfo L
              ∧ (audio_process_cb L numOutputs out s).1.g_positionInfo.currentRow = row
              ∧ (audio_process_cb L numOutputs out s).1.g_positionReady = 1
              ∧ (audio_process_cb L numOutputs out s).1.g_lastReportedRow = row
              ∧ (audio_process_cb L numOutputs out s).1.timeSinceLastReport = 0)
        ∧ (publishCount L numOutputs out s = 0 →
            (audio_process_cb L numOutputs out s).1.g_positionInfo = s.g_positionInfo
              ∧ (audio_process_cb L numOutputs out s).1.g_positionReady = s.g_positionReady
              ∧ (audio_process_cb L numOutputs out s).1.g_lastReportedRow
                  = s.g_lastReportedRow
              ∧ (audio_process_cb L numOutputs out s).1.timeSinceLastReport
                  = accumulatedOf L out s))
      ∧ (EndsStream L numOutputs out s →
          publishCount L numOutputs out s = 1
            ∧ (audio_process_cb L numOutputs out s).1.g_positionInfo.currentRow = -1
            ∧ (audio_process_cb L numOutputs out s).1.g_positionReady = 1
            ∧ (audio_process_cb L numOutputs out s).1.g_lastReportedRow = s.g_lastReportedRow
            ∧ (audio_process_cb L numOutputs out s).1.timeSinceLastReport
                = s.timeSinceLastReport)
      ∧ (RendersNothing L numOutputs out s →
          publishCount L numOutputs out s = 0
            ∧ (audio_process_cb L numOutputs out s).1.g_positionInfo = s.g_positionInfo
            ∧ (audio_process_cb L numOutputs out s).1.g_positionReady = s.g_positionReady
            ∧ (audio_process_cb L numOutputs out s).1.g_lastReportedRow = s.g_lastReportedRow
            ∧ (audio_process_cb L numOutputs out s).1.timeSinceLastReport
                = s.timeSinceLastReport)
      ∧ (∀ op : ControlOp,
          (op.apply s).g_lastReportedRow = s.g_lastReportedRow
            ∧ (op.apply s).timeSinceLastReport = s.timeSinceLastReport)
      ∧ (State.init : State E).g_lastReportedRow = -1
      ∧ (State.init : State E).timeSinceLastReport = 0 := by
  refine ⟨?_, ?_, ?_, ?_, rfl, rfl⟩
  · intro h
    have hiff := publishCount_pos_iff L numOutputs out s row h
    have hstep := throttle_step L numOutputs out s row h
    have hvars := throttle_vars L numOutputs out s row h
    refine ⟨hiff, ?_, ?_⟩
    · intro hp
      refine ⟨?_, ?_, ?_, ?_, ?_⟩
      · rw [hstep, if_pos (hiff.mp hp)]
      · rw [hstep, if_pos (hiff.mp hp)]
        obtain ⟨_, _, hl, _, hrow⟩ := h
        have hl2 := readInterleavedStereo_isSome L (drainCommands L s).g_module
          (effectiveRate out) 128 (fun _ => 0)
        rw [← hrow]
        unfold OpenMPTModule.isLoaded at hl
        rw [hl] at hl2
        dsimp only
        unfold OpenMPTModule.fillPositionInfo OpenMPTModule.getCurrentRow
        cases hm : ((drainCommands L s).g_module.readInterleavedStereo L (effectiveRate out)
          128 (fun _ => 0)).1.mod_ with
        | none => rw [hm] at hl2; simp at hl2
        | some e => rfl
      · rw [hstep, if_pos (hiff.mp hp)]
      · rw [hvars.1, if_pos hp]
      · rw [hvars.2, if_pos hp]
    · intro hp
      have hnp : ¬ 0 < publishCount L numOutputs out s := by omega
      have hno : ¬ (row ≠ s.g_lastReportedRow ∨ accumulatedOf L out s ≥ thresholdOf L) :=
        fun hc => hnp (hiff.mpr hc)
      refine ⟨?_, ?_, ?_, ?_⟩
      · rw [hstep, if_neg hno]
        simp [drainCommands]
      · rw [hstep, if_neg hno]
        simp [drainCommands]
      · rw [hvars.1, if_neg hnp]
      · rw [hvars.2, if_neg hnp]
  · intro h
    refine ⟨ended_publishCount L numOutputs out s h, ?_, ?_, ?_, ?_⟩
    all_goals rw [ended_step L numOutputs out s h]
    all_goals simp [drainCommands]
  · intro h
    refine ⟨nothing_publishCount L numOutputs out s h, ?_, ?_, ?_, ?_⟩
    all_goals rw [nothing_step L numOutputs out s h]
    all_goals simp [drainCommands]
  · intro op
    exact ⟨controlOp_g_lastReportedRow op s, controlOp_timeSinceLastReport op s⟩

/-- C5 (witness): in the test run, the quantum after the end-of-stream quantum
renders on the unchanged row 5 and does not publish; the end-of-stream quantum
itself publishes row -1 and leaves the last reported row at 5; and a quantum on
the initial state, with no module loaded, publishes nothing. -/
theorem C5_throttle_decision_witness :
    ((audio_process_cb toyLib 1 toyOut c5s2).1.g_positionReady = c5s2.g_positionReady
        ∧ (audio_process_cb toyLib 1 toyOut c5s2).1.g_lastReportedRow = c5s2.g_lastReportedRow)
      ∧ (publishCount toyLib 1 toyOut c5s1 = 1
        ∧ (audio_process_cb toyLib 1 toyOut c5s1).1.g_positionInfo.currentRow = -1
        ∧ (audio_process_cb toyLib 1 toyOut c5s1).1.g_lastReportedRow = c5s1.g_lastReportedRow)
      ∧ publishCount toyLib 1 toyOut (State.init : State ToyEngine) = 0 :=
  ⟨⟨(((C5_throttle_decision toyLib 1 toyOut c5s2 5).1 c5s2_rendersRow).2.2
        c5s2_publishCount).2.1,
      (((C5_throttle_decision toyLib 1 toyOut c5s2 5).1 c5s2_rendersRow).2.2
        c5s2_publishCount).2.2.1⟩,
    ⟨((C5_throttle_decision toyLib 1 toyOut c5s1 5).2.1 c5s1_endsStream).1,
      ((C5_throttle_decision toyLib 1 toyOut c5s1 5).2.1 c5s1_endsStream).2.1,
      ((C5_throttle_decision toyLib 1 toyOut c5s1 5).2.1 c5s1_endsStream).2.2.2.1⟩,
    ((C5_throttle_decision toyLib 1 toyOut State.init 5).2.2.1 init_rendersNothing).1⟩

/-! ## C6: the throttle interval -/

theorem toyRun_state (k : Nat) :
    (runQuanta toyLib toyQuanta toyLoaded k).g_module = toyLoaded.g_module
      ∧ (runQuanta toyLib toyQuanta toyLoaded k).g_cmdLoad = 0
      ∧ (runQuanta toyLib toyQuanta toyLoaded k).g_cmdSeekOrder = -1
      ∧ (runQuanta toyLib toyQuanta toyLoaded k).g_cmdSeekRow = -1
      ∧ (runQuanta toyLib toyQuanta toyLoaded k).g_cmdSetLoop = -1
      ∧ (runQuanta toyLib toyQuanta toyLoaded k).g_cmdVolume = -1 := by
  induction k with
  | zero => exact ⟨rfl, rfl, rfl, rfl, rfl, rfl⟩
  | succ k ih =>
    obtain ⟨h1, h2, h3, h4, h5, h6⟩ := ih
    have hd : drainCommands toyLib (runQuanta toyLib toyQuanta toyLoaded k)
        = runQuanta toyLib toyQuanta toyLoaded k :=
      drainCommands_idle toyLib _ (by rw [h2]; decide) h3 h4 h5 h6
    have hrun : runQuanta toyLib toyQuanta toyLoaded (k + 1)
        = (renderQuantum toyLib 1 toyOut (runQuanta toyLib toyQuanta toyLoaded k)).1 := by
      show (audio_process_cb toyLib 1 toyOut (runQuanta toyLib toyQuanta toyLoaded k)).1 = _
      rw [audio_process_cb, hd]
    rw [hrun]
    refine ⟨?_, ?_, ?_, ?_, ?_, ?_⟩
    · rw [renderQuantum_g_module toyLib 1 toyOut _ (by decide) (by decide) (by rw [h1]; rfl), h1]
      simp [toyLoaded, OpenMPTModule.readInterleavedStereo, toyLib, rat_one_not_lt]
    all_goals simp [h2, h3, h4, h5, h6]

theorem toyRun_rendersRow (k : Nat) :
    RendersRow toyLib (toyQuanta k).numOutputs (toyQuanta k).out
      ((toyQuanta k).pre (runQuanta toyLib toyQuanta toyLoaded k)) 5 := by
  obtain ⟨h1, h2, h3, h4, h5, h6⟩ := toyRun_state k
  have hd : drainCommands toyLib (runQuanta toyLib toyQuanta toyLoaded k)
      = runQuanta toyLib toyQuanta toyLoaded k :=
    drainCommands_idle toyLib _ (by rw [h2]; decide) h3 h4 h5 h6
  show RendersRow toyLib 1 toyOut (runQuanta toyLib toyQuanta toyLoaded k) 5
  unfold RendersRow
  rw [hd, h1]
  simp [toyLoaded, toyOut, OpenMPTModule.isLoaded, OpenMPTModule.readInterleavedStereo, toyLib,
    effectiveRate, wrapInt32, rat_one_not_lt, OpenMPTModule.getCurrentRow]

/-- One step of the test run: whether it publishes, and the throttle variables
it leaves. -/
theorem toyRun_step (k : Nat) :
    (publishesAt toyLib toyQuanta toyLoaded k
        ↔ ((5 : Int) ≠ (runQuanta toyLib toyQuanta toyLoaded k).g_lastReportedRow
          ∨ (runQuanta toyLib toyQuanta toyLoaded k).timeSinceLastReport + 1 / 375
              ≥ 16 / 1000))
      ∧ (runQuanta toyLib toyQuanta toyLoaded (k + 1)).g_lastReportedRow
          = (if publishesAt toyLib toyQuanta toyLoaded k then 5
              else (runQuanta toyLib toyQuanta toyLoaded k).g_lastReportedRow)
      ∧ (runQuanta toyLib toyQuanta toyLoaded (k + 1)).timeSinceLastReport
          = (if publishesAt toyLib toyQuanta toyLoaded k then 0
              else (runQuanta toyLib toyQuanta toyLoaded k).timeSinceLastReport + 1 / 375) := by
  have hr := toyRun_rendersRow k
  have hiff := publishCount_pos_iff toyLib _ _ _ 5 hr
  have hv := throttle_vars toyLib _ _ _ 5 hr
  have hel : (128 : ℚ) / ((effectiveRate (toyQuanta k).out : Int) : ℚ) = 1 / 375 := by
    norm_num [toyQuanta, toyOut, effectiveRate]
  have hpre : (toyQuanta k).pre (runQuanta toyLib toyQuanta toyLoaded k)
      = runQuanta toyLib toyQuanta toyLoaded k := rfl
  rw [accumulatedOf_exact toyLib _ _ toyLib_exact, thresholdOf_exact toyLib toyLib_exact, hel,
    hpre] at hiff
  rw [accumulatedOf_exact toyLib _ _ toyLib_exact, hel, hpre] at hv
  exact ⟨hiff, hv.1, hv.2⟩

theorem toyRun_publishes_0 : publishesAt toyLib toyQuanta toyLoaded 0 :=
  (toyRun_step 0).1.mpr (Or.inl (by decide))

theorem toyRun_quiet (k : Nat) (a : ℚ)
    (h1 : (runQuanta toyLib toyQuanta toyLoaded k).g_lastReportedRow = 5)
    (h2 : (runQuanta toyLib toyQuanta toyLoaded k).timeSinceLastReport = a)
    (h3 : a + 1 / 375 < 16 / 1000) :
    (runQuanta toyLib toyQuanta toyLoaded (k + 1)).g_lastReportedRow = 5
      ∧ (runQuanta toyLib toyQuanta toyLoaded (k + 1)).timeSinceLastReport = a + 1 / 375 := by
  obtain ⟨hiff, hrow, hacc⟩ := toyRun_step k
  have hno : ¬ publishesAt toyLib toyQuanta toyLoaded k := by
    rw [hiff, h1, h2]
    intro hc
    rcases hc with hc | hc
    · exact hc rfl
    · linarith
  rw [hrow, hacc, if_neg hno, if_neg hno, h1, h2]
  exact ⟨rfl, rfl⟩

theorem toyRun_publishes_6 : publishesAt toyLib toyQuanta toyLoaded 6 := by
  obtain ⟨_, hrow, hacc⟩ := toyRun_step 0
  rw [if_pos toyRun_publishes_0] at hrow hacc
  have s2 := toyRun_quiet 1 0 hrow hacc (by norm_num)
  have s3 := toyRun_quiet 2 _ s2.1 s2.2 (by norm_num)
  have s4 := toyRun_quiet 3 _ s3.1 s3.2 (by norm_num)
  have s5 := toyRun_quiet 4 _ s4.1 s4.2 (by norm_num)
  have s6 := toyRun_quiet 5 _ s5.1 s5.2 (by norm_num)
  rw [(toyRun_step 6).1, s6.2]
  right
  norm_num

/-- C6: in a run of quanta at one sample rate, with control calls allowed in
between, in which every quantum renders at least one frame of a loaded module
and the engine stays on one row, any two publishing quanta `i < j` are
separated by quanta whose total duration `(j - i) * 128 / sampleRate`, in exact
arithmetic, is at least 0.016 s; no quantum publishes more than once; and at
48000 Hz any two publishing quanta are at least 6 quanta apart.  This holds
when the program's `double` operations are exact, and also when they round to
nearest and the sample rate fits its `int`. -/
theorem C6_throttle_interval (L : Lib E) (q : Nat → Quantum) (s0 : State E) (n : Nat)
    (rate row : Int)
    (harith : ThrottleArithmetic L rate)
    (hrate : ∀ k, k < n → effectiveRate (q k).out = rate)
    (hrend : ∀ k, k < n →
      RendersRow L (q k).numOutputs (q k).out ((q k).pre (runQuanta L q s0 k)) row) :
    (∀ i j, i < j → j < n → publishesAt L q s0 i → publishesAt L q s0 j →
        (16 : ℚ) / 1000 ≤ ((j - i : Nat) : ℚ) * (128 / (rate : ℚ)))
      ∧ (∀ k, k < n →
        publishCount L (q k).numOutputs (q k).out ((q k).pre (runQuanta L q s0 k)) ≤ 1)
      ∧ (rate = 48000 →
        ∀ i j, i < j → j < n → publishesAt L q s0 i → publishesAt L q s0 j → 6 ≤ j - i) := by
  refine ⟨fun i j hij hj hpi hpj =>
      run_publish_gap L q s0 n rate row harith hrate hrend i j hij hj hpi hpj,
    fun k _ => publishCount_le_one L _ _ _, ?_⟩
  intro h48 i j hij hj hpi hpj
  have hgap := run_publish_gap L q s0 n rate row harith hrate hrend i j hij hj hpi hpj
  rw [h48] at hgap
  by_contra hlt
  have h5 : j - i ≤ 5 := by omega
  have h5q : ((j - i : Nat) : ℚ) ≤ 5 := by exact_mod_cast h5
  have : ((j - i : Nat) : ℚ) * (128 / ((48000 : Int) : ℚ)) ≤ 5 * (128 / ((48000 : Int) : ℚ)) := by
    apply mul_le_mul_of_nonneg_right h5q
    norm_num
  norm_num at this hgap
  linarith

/-- C6 (witness): in the test run at 48000 Hz, which stays on row 5, quanta 0
and 6 publish, and they are 6 quanta apart. -/
theorem C6_throttle_interval_witness :
    publishesAt toyLib toyQuanta toyLoaded 0
      ∧ publishesAt toyLib toyQuanta toyLoaded 6
      ∧ 6 ≤ 6 - 0 :=
  ⟨toyRun_publishes_0, toyRun_publishes_6,
    (C6_throttle_interval toyLib toyQuanta toyLoaded 100 48000 5 (Or.inl toyLib_exact)
      (fun _ _ => rfl) (fun k _ => toyRun_rendersRow k)).2.2 rfl 0 6 (by decide) (by decide)
      toyRun_publishes_0 toyRun_publishes_6⟩

/-! ## C7: at-most-once delivery -/

/-- C7: in a state whose ready flag is 0 or 1 (every reachable state), the first
of two consecutive `poll_position` calls returns the snapshot exactly when the
ready flag was 1, the second returns null, and the ready flag is 0 after each
of them. -/
theorem C7_at_most_once (s : State E)
    (h : s.g_positionReady = 0 ∨ s.g_positionReady = 1) :
    ((poll_position s).2 = if s.g_positionReady = 1 then some s.g_positionInfo else none)
      ∧ (poll_position (poll_position s).1).2 = none
      ∧ (poll_position s).1.g_positionReady = 0
      ∧ (poll_position (poll_position s).1).1.g_positionReady = 0 := by
  refine ⟨?_, ?_, ?_, ?_⟩
  · rw [poll_position_result]
    rcases h with h | h <;> simp [h]
  · rw [poll_position_result, poll_position_state]
    simp
  · rw [poll_position_state]
  · rw [poll_position_state]

/-- C7 (witness): after the end-of-stream quantum of the test run the first poll
returns the snapshot and the second returns null. -/
theorem C7_at_most_once_witness :
    (poll_position c5s2).2 = some c5s2.g_positionInfo
      ∧ (poll_position (poll_position c5s2).1).2 = none := by
  have hflag : c5s2.g_positionReady = 1 := by rw [c5s2_eq]
  have h := C7_at_most_once c5s2 (Or.inr hflag)
  rw [if_pos hflag] at h
  exact ⟨h.1, h.2.1⟩

/-! ## C8: last write wins for the loop command -/

/-- C8: `set_loop(1)` then `set_loop(0)` then one callback makes exactly one
`setRepeatCount` call, with count 0.  For a non-empty sequence of `set_loop`
calls with values `≥ 0` before one callback, the callback makes exactly one
`setRepeatCount` call, with count -1 if the last value is non-zero and 0 if it
is zero, and this call is the last thing the command phase does to the module;
the next callback, with no new submission, makes no `setRepeatCount` call. -/
theorem C8_loop_last_write_wins (L : Lib E) (numOutputs : Int) (out : AudioSampleFrame)
    (numOutputs2 : Int) (out2 : AudioSampleFrame) (s : State E) :
    (newEvents (set_loop 0 (set_loop 1 s))
        (audio_process_cb L numOutputs out (set_loop 0 (set_loop 1 s))).1).filter
          Event.isSetRepeatCount = [Event.setRepeatCount 0]
      ∧ ∀ (vs : List Int) (hne : vs ≠ []), (∀ v ∈ vs, 0 ≤ v) →
        (newEvents (vs.foldl (fun t v => set_loop v t) s)
            (audio_process_cb L numOutputs out (vs.foldl (fun t v => set_loop v t) s)).1).filter
              Event.isSetRepeatCount
            = [Event.setRepeatCount (if vs.getLast hne ≠ 0 then -1 else 0)]
          ∧ (drainCommands L (vs.foldl (fun t v => set_loop v t) s)).g_module.mod_
            = (drainSeek L (drainLoad L s)).g_module.mod_.map
                (fun e => L.set_repeat_count e (if vs.getLast hne ≠ 0 then -1 else 0))
          ∧ (newEvents (audio_process_cb L numOutputs out (vs.foldl (fun t v => set_loop v t) s)).1
              (audio_process_cb L numOutputs2 out2
                (audio_process_cb L numOutputs out
                  (vs.foldl (fun t v => set_loop v t) s)).1).1).filter
              Event.isSetRepeatCount = [] := by
  constructor
  · rw [cb_filter_isSetRepeatCount]
    simp [loopEvents, set_loop]
  · intro vs hne hpos
    have hlast : 0 ≤ vs.getLast hne := hpos _ (List.getLast_mem hne)
    rw [foldl_set_loop vs hne s]
    refine ⟨?_, ?_, ?_⟩
    · rw [cb_filter_isSetRepeatCount]
      simp [loopEvents, set_loop, hlast]
    · have e1 : drainLoad L (set_loop (vs.getLast hne) s)
          = set_loop (vs.getLast hne) (drainLoad L s) := by
        unfold drainLoad set_loop; dsimp only; repeat' split
        all_goals simp_all
      have e2 : drainSeek L (set_loop (vs.getLast hne) (drainLoad L s))
          = set_loop (vs.getLast hne) (drainSeek L (drainLoad L s)) := by
        unfold drainSeek set_loop; dsimp only; repeat' split
        all_goals rfl
      rw [drainCommands, drainVolume_mod, e1, e2]
      unfold drainLoop set_loop
      simp only [hlast, ge_iff_le, if_true]
      unfold OpenMPTModule.setRepeatCount
      generalize (drainSeek L (drainLoad L s)).g_module = m
      cases m with
      | mk md vol => cases md <;> rfl
    · rw [cb_filter_isSetRepeatCount]
      simp [loopEvents, (cb_mailboxes L numOutputs out _).2.2.1]

/-- C8 (witness): the sequence 1, 0 on the loaded test state. -/
theorem C8_loop_last_write_wins_witness :
    (newEvents ([1, 0].foldl (fun t v => set_loop v t) toyLoaded)
        (audio_process_cb toyLib 1 toyOut
          ([1, 0].foldl (fun t v => set_loop v t) toyLoaded)).1).filter Event.isSetRepeatCount
      = [Event.setRepeatCount 0] :=
  ((C8_loop_last_write_wins toyLib 1 toyOut 1 toyOut toyLoaded).2 [1, 0] (by decide)
    (by decide)).1

/-! ## C9: seek validity -/

/-- C9: after `seek_order_row(order, row)` (both stores done) and one callback,
`seekOrderRow(order, row)` has been called on the module exactly when
`order ≥ 0` and `row ≥ 0`, in which case the engine, if loaded, has been moved
to that position; otherwise no seek is made and the engine is untouched.  In
both cases both seek mailboxes are -1 afterwards and the next callback makes no
seek call. -/
theorem C9_seek_validity (L : Lib E) (numOutputs : Int) (out : AudioSampleFrame)
    (numOutputs2 : Int) (out2 : AudioSampleFrame) (s : State E) (order row : Int) :
    (newEvents (seek_order_row order row s)
        (audio_process_cb L numOutputs out (seek_order_row order row s)).1).filter Event.isSeek
        = (if 0 ≤ order ∧ 0 ≤ row then [Event.seekOrderRow order row] else [])
      ∧ (drainSeek L (drainLoad L (seek_order_row order row s))).g_module.mod_
        = (if 0 ≤ order ∧ 0 ≤ row then
            (drainLoad L s).g_module.mod_.map (fun e => L.set_position_order_row e order row)
          else (drainLoad L s).g_module.mod_)
      ∧ (audio_process_cb L numOutputs out (seek_order_row order row s)).1.g_cmdSeekOrder = -1
      ∧ (audio_process_cb L numOutputs out (seek_order_row order row s)).1.g_cmdSeekRow = -1
      ∧ (newEvents (audio_process_cb L numOutputs out (seek_order_row order row s)).1
          (audio_process_cb L numOutputs2 out2
            (audio_process_cb L numOutputs out (seek_order_row order row s)).1).1).filter
          Event.isSeek = [] := by
  have hm := cb_mailboxes L numOutputs out (seek_order_row order row s)
  refine ⟨?_, ?_, hm.1, hm.2.1, ?_⟩
  · rw [cb_filter_isSeek]
    simp [seekEvents, seek_order_row]
  · have e1 : drainLoad L (seek_order_row order row s)
        = seek_order_row order row (drainLoad L s) := by
      unfold drainLoad seek_order_row; dsimp only; repeat' split
      all_goals simp_all
    rw [e1]
    unfold drainSeek seek_order_row
    dsimp only
    by_cases hc : 0 ≤ order ∧ 0 ≤ row
    · simp only [hc, ge_iff_le, and_self, if_true]
      unfold OpenMPTModule.seekOrderRow
      generalize (drainLoad L s).g_module = m
      cases m with
      | mk md vol => cases md <;> rfl
    · simp only [ge_iff_le, hc, if_false]
  · rw [cb_filter_isSeek]
    simp [seekEvents, hm.1, hm.2.1]

/-! ## C10: a second load supersedes the first -/

/-- C10: for non-empty buffers `A` and `B` and succeeding allocations,
`load_module(A)` then `load_module(B)` both return 1; the next callback calls
the module's `load` exactly once, with the bytes of `B` and length `|B|`, and
the module is then what `load` makes of `B`.  Afterwards the load flag is 0, the
transfer buffer is null with size 0, whether or not the engine accepted the
data, and a further callback makes no `load` call. -/
theorem C10_load_supersedes (L : Lib E) (numOutputs : Int) (out : AudioSampleFrame)
    (numOutputs2 : Int) (out2 : AudioSampleFrame) (s : State E) (A B : List Nat)
    (hA : A ≠ []) (hB : B ≠ []) :
    (load_module (some A) (A.length : Int) true s).2 = 1
      ∧ (load_module (some B) (B.length : Int) true
          (load_module (some A) (A.length : Int) true s).1).2 = 1
      ∧ (newEvents
          (load_module (some B) (B.length : Int) true
            (load_module (some A) (A.length : Int) true s).1).1
          (audio_process_cb L numOutputs out
            (load_module (some B) (B.length : Int) true
              (load_module (some A) (A.length : Int) true s).1).1).1).filter Event.isLoad
        = [Event.load B B.length]
      ∧ (drainLoad L
          (load_module (some B) (B.length : Int) true
            (load_module (some A) (A.length : Int) true s).1).1).g_module
        = (s.g_module.load L B B.length).1
      ∧ (audio_process_cb L numOutputs out
          (load_module (some B) (B.length : Int) true
            (load_module (some A) (A.length : Int) true s).1).1).1.g_cmdLoad = 0
      ∧ (audio_process_cb L numOutputs out
          (load_module (some B) (B.length : Int) true
            (load_module (some A) (A.length : Int) true s).1).1).1.g_moduleData = none
      ∧ (audio_process_cb L numOutputs out
          (load_module (some B) (B.length : Int) true
            (load_module (some A) (A.length : Int) true s).1).1).1.g_moduleDataSize = 0
      ∧ (newEvents
          (audio_process_cb L numOutputs out
            (load_module (some B) (B.length : Int) true
              (load_module (some A) (A.length : Int) true s).1).1).1
          (audio_process_cb L numOutputs2 out2
            (audio_process_cb L numOutputs out
              (load_module (some B) (B.length : Int) true
                (load_module (some A) (A.length : Int) true s).1).1).1).1).filter Event.isLoad
        = [] := by
  have hlenB : 0 < B.length := List.length_pos.mpr hB
  rw [load_module_accepted A hA s, load_module_accepted B hB]
  dsimp only
  have hpend := drainLoad_pending L
    ({ s with g_moduleData := some B, g_moduleDataSize := B.length, g_cmdLoad := 1 } : State E)
    B rfl rfl hlenB
  have hflag := cb_g_cmdLoad L numOutputs out
    ({ s with g_moduleData := some B, g_moduleDataSize := B.length, g_cmdLoad := 1 } : State E) rfl
  refine ⟨rfl, rfl, ?_, ?_, hflag, ?_, ?_, ?_⟩
  · rw [cb_filter_isLoad]
    simp [loadEvents, hlenB]
  · rw [hpend]
  · simp only [audio_process_cb, drainCommands, renderQuantum_g_moduleData,
      drainVolume_g_moduleData, drainLoop_g_moduleData, drainSeek_g_moduleData, hpend]
  · simp only [audio_process_cb, drainCommands, renderQuantum_g_moduleDataSize,
      drainVolume_g_moduleDataSize, drainLoop_g_moduleDataSize, drainSeek_g_moduleDataSize, hpend]
  · rw [cb_filter_isLoad]
    simp [loadEvents, hflag]

/-- C10 (witness): the buffers `[1, 2]` and `[77, 128, 5]` on the initial state. -/
theorem C10_load_supersedes_witness :
    (newEvents
        (load_module (some [77, 128, 5]) 3 true
          (load_module (some [1, 2]) 2 true (State.init : State ToyEngine)).1).1
        (audio_process_cb toyLib 1 toyOut
          (load_module (some [77, 128, 5]) 3 true
            (load_module (some [1, 2]) 2 true
              (State.init : State ToyEngine)).1).1).1).filter Event.isLoad
      = [Event.load [77, 128, 5] 3] :=
  (C10_load_supersedes toyLib 1 toyOut 1 toyOut State.init [1, 2] [77, 128, 5]
    (by decide) (by decide)).2.2.1

/-! ## C11: a rejected load -/

theorem c5s0_eq :
    c5s0 = { (State.init : State ToyEngine) with
      g_moduleData := some [77, 128, 5, 0, 5]
      g_moduleDataSize := 5
      g_cmdLoad := 1 } := by
  simp [c5s0, load_module]

theorem c11s_eq :
    c11s = { (State.init : State ToyEngine) with
      g_moduleData := none
      g_moduleDataSize := 5
      g_cmdLoad := 1 } := by
  rw [c11s, load_module_alloc_failed _ _ _ (by decide), c5s0_eq]

/-- C11 (the code at the failing input): with the load of a five-byte module
still pending, a `load_module` call whose allocation fails returns 0, yet the
transfer pointer is now null while the load flag is still 1 and the recorded
size still 5; the next callback makes no `load` call and no module is loaded,
whereas without the rejected call the next callback loads the pending module. -/
theorem C11_alloc_failure_drops_pending_load :
    c5s0.g_cmdLoad = 1
      ∧ c5s0.g_moduleData = some [77, 128, 5, 0, 5]
      ∧ c5s0.g_moduleDataSize = 5
      ∧ (load_module (some [77, 1, 1]) 3 false c5s0).2 = 0
      ∧ c11s.g_moduleData = none
      ∧ c11s.g_cmdLoad = 1
      ∧ c11s.g_moduleDataSize = 5
      ∧ (newEvents c11s (audio_process_cb toyLib 1 toyOut c11s).1).filter Event.isLoad = []
      ∧ (audio_process_cb toyLib 1 toyOut c11s).1.g_module.isLoaded = false
      ∧ (newEvents c5s0 (audio_process_cb toyLib 1 toyOut c5s0).1).filter Event.isLoad
          = [Event.load [77, 128, 5, 0, 5] 5]
      ∧ (audio_process_cb toyLib 1 toyOut c5s0).1.g_module.isLoaded = true := by
  refine ⟨?_, ?_, ?_, ?_, ?_, ?_, ?_, ?_, ?_, ?_, ?_⟩
  · rw [c5s0_eq]
  · rw [c5s0_eq]
  · rw [c5s0_eq]
  · rw [load_module_alloc_failed _ _ _ (by decide)]
  · rw [c11s_eq]
  · rw [c11s_eq]
  · rw [c11s_eq]
  · rw [cb_filter_isLoad, c11s_eq]
    simp [loadEvents]
  · rw [audio_process_cb_isLoaded, c11s_eq, drainLoad_no_buffer toyLib _ rfl rfl]
    rfl
  · rw [cb_filter_isLoad, c5s0_eq]
    simp [loadEvents]
  · rw [audio_process_cb_isLoaded, c5s0_eq,
      drainLoad_pending toyLib _ [77, 128, 5, 0, 5] rfl rfl (by decide)]
    rfl

/-! ## C12: cleanup -/

theorem c12s_eq :
    c12s = { c5s2 with
      g_moduleData := some [77]
      g_moduleDataSize := 1
      g_cmdLoad := 1
      g_cmdSetLoop := 1 } := by
  simp [c12s, set_loop, load_module]

/-- C12 (counterexample): in a reachable state with a load and `set_loop(1)`
submitted and a snapshot ready, `cleanup_audio` leaves the load flag at 1, the
transfer size at 1, the loop mailbox at 1 and the ready flag at 1; the next
callback makes the call `setRepeatCount(-1)`, and the next `poll_position`
returns a snapshot. -/
theorem C12_cleanup_keeps_channel_state :
    (cleanup_audio c12s).g_cmdLoad = 1
      ∧ (cleanup_audio c12s).g_moduleDataSize = 1
      ∧ (cleanup_audio c12s).g_cmdSetLoop = 1
      ∧ (cleanup_audio c12s).g_positionReady = 1
      ∧ (newEvents (cleanup_audio c12s)
          (audio_process_cb toyLib 1 toyOut (cleanup_audio c12s)).1).filter
            Event.isSetRepeatCount = [Event.setRepeatCount (-1)]
      ∧ (poll_position (cleanup_audio c12s)).2 = some c5s2.g_positionInfo := by
  have h1 : (cleanup_audio c12s).g_cmdLoad = 1 := by rw [cleanup_audio_eq, c12s_eq]
  have h2 : (cleanup_audio c12s).g_moduleDataSize = 1 := by rw [cleanup_audio_eq, c12s_eq]
  have h3 : (cleanup_audio c12s).g_cmdSetLoop = 1 := by rw [cleanup_audio_eq, c12s_eq]
  have h4 : (cleanup_audio c12s).g_positionReady = 1 := by
    rw [cleanup_audio_eq, c12s_eq, c5s2_eq]
  have h5 : (cleanup_audio c12s).g_positionInfo = c5s2.g_positionInfo := by
    rw [cleanup_audio_eq, c12s_eq]
  refine ⟨h1, h2, h3, h4, ?_, ?_⟩
  · rw [cb_filter_isSetRepeatCount]
    simp [loopEvents, h3]
  · rw [poll_position_result, h4, h5]
    simp

/-- C12 (amended): after `cleanup_audio` no module is loaded, the transfer
pointer is null and the context and node handles are 0, while the load flag,
the seek, loop and volume mailboxes, the snapshot and its ready flag hold the
values they had before the call.  The next callback makes no `load` call, reads
no audio and publishes nothing; the calls it makes are exactly the seek, loop
and volume commands that were pending before the cleanup.  The next
`poll_position` returns the snapshot exactly when the ready flag was non-zero
before the cleanup.  A second `cleanup_audio` changes no variable of the
program (only the record of calls grows by the second `unload`). -/
theorem C12_cleanup_audio (L : Lib E) (numOutputs : Int) (out : AudioSampleFrame)
    (s : State E) :
    (cleanup_audio s).g_module.isLoaded = false
      ∧ (cleanup_audio s).g_moduleData = none
      ∧ (cleanup_audio s).g_audioCtx = 0
      ∧ (cleanup_audio s).g_workletNode = 0
      ∧ (cleanup_audio s).g_cmdLoad = s.g_cmdLoad
      ∧ (cleanup_audio s).g_cmdSeekOrder = s.g_cmdSeekOrder
      ∧ (cleanup_audio s).g_cmdSeekRow = s.g_cmdSeekRow
      ∧ (cleanup_audio s).g_cmdSetLoop = s.g_cmdSetLoop
      ∧ (cleanup_audio s).g_cmdVolume = s.g_cmdVolume
      ∧ (cleanup_audio s).g_positionInfo = s.g_positionInfo
      ∧ (cleanup_audio s).g_positionReady = s.g_positionReady
      ∧ newEvents (cleanup_audio s) (audio_process_cb L numOutputs out (cleanup_audio s)).1
          = seekEvents s ++ loopEvents s ++ volumeEvents s
      ∧ (audio_process_cb L numOutputs out (cleanup_audio s)).1.g_module.isLoaded = false
      ∧ (poll_position (cleanup_audio s)).2
          = (if s.g_positionReady ≠ 0 then some s.g_positionInfo else none)
      ∧ cleanup_audio (cleanup_audio s)
          = { cleanup_audio s with events := (cleanup_audio s).events ++ [Event.unload] } := by
  have hload : loadEvents (cleanup_audio s) = [] := by
    rw [cleanup_audio_eq]
    unfold loadEvents
    dsimp only
    split <;> rfl
  have hseek : seekEvents (cleanup_audio s) = seekEvents s := by
    rw [cleanup_audio_eq]; rfl
  have hloop : loopEvents (cleanup_audio s) = loopEvents s := by
    rw [cleanup_audio_eq]; rfl
  have hvol : volumeEvents (cleanup_audio s) = volumeEvents s := by
    rw [cleanup_audio_eq]; rfl
  have hdl : (drainLoad L (cleanup_audio s)).g_module.isLoaded = false := by
    have hm : (cleanup_audio s).g_module.mod_ = none := by
      rw [cleanup_audio_eq]; exact unload_mod _
    have hd : (cleanup_audio s).g_moduleData = none := by rw [cleanup_audio_eq]
    unfold drainLoad
    dsimp only
    split
    · simp [hd, OpenMPTModule.isLoaded, hm]
    · simp [OpenMPTModule.isLoaded, hm]
  have hcb : (audio_process_cb L numOutputs out (cleanup_audio s)).1.g_module.isLoaded
      = false := by
    rw [audio_process_cb_isLoaded, hdl]
  have hdc : (drainCommands L (cleanup_audio s)).g_module.isLoaded = false := by
    have := audio_process_cb_isLoaded L 0 out (cleanup_audio s)
    simp only [audio_process_cb, OpenMPTModule.isLoaded, renderQuantum_isSome] at this
    simpa [OpenMPTModule.isLoaded] using this.trans hdl
  refine ⟨?_, by rw [cleanup_audio_eq], by rw [cleanup_audio_eq], by rw [cleanup_audio_eq],
    by rw [cleanup_audio_eq], by rw [cleanup_audio_eq], by rw [cleanup_audio_eq],
    by rw [cleanup_audio_eq], by rw [cleanup_audio_eq], by rw [cleanup_audio_eq],
    by rw [cleanup_audio_eq], ?_, hcb, ?_, ?_⟩
  · rw [cleanup_audio_eq]
    simp [OpenMPTModule.isLoaded, unload_mod]
  · rw [audio_process_cb_newEvents, hload, hseek, hloop, hvol,
      renderEvents_not_loaded L numOutputs out _ hdc]
    simp
  · rw [poll_position_result, cleanup_audio_eq]
  · rw [cleanup_audio_eq (cleanup_audio s), cleanup_audio_eq s]
    simp [unload_unload]

end ModPlayer
